import Mathlib

/-!
# ipmitool, `lib/ipmi_channel.c`: channel commands

A shallow embedding of the channel command unit (`authcap`, `getaccess`,
`setaccess`, `info`) and theorems about the requests it hands to the
transport, its return status and what it prints.

Conventions of the embedding

* C strings are lists of bytes (`cstring`), the end of the list standing for
  the terminating NUL.
* `unsigned char` values are naturals, reduced `% 256` where the C code
  converts; bit-fields are reduced `% 2 ^ width` on every store.
* The transport (`intf->sendrecv`) is an arbitrary deterministic state
  machine.  Every function threads a `World`: the transport state, the list
  of requests handed to `sendrecv` so far (oldest first) and the list of
  `printf` / `lprintf` calls made so far.
* The one loop whose bound comes from the device (`ipmi_get_user_access`)
  takes a fuel argument and returns `none` only when the fuel runs out.
-/

namespace IpmiChannel

/-! ## C strings and libc -/

/-- A C string: its bytes, without the terminating NUL. -/
abbrev cstring := List Nat

/-- The bytes of a string literal. -/
def cstr (s : String) : cstring := s.toList.map Char.toNat

/-- The libc `strncmp`: compares at most `n` bytes, stops at a NUL, and returns
the difference of the first pair of bytes that differ (as the reference C
implementation does; the C standard fixes only the sign). -/
def strncmp : cstring → cstring → Nat → Int
  | _, _, 0 => 0
  | s1, s2, n + 1 =>
    let c1 := s1.headD 0
    let c2 := s2.headD 0
    if c1 ≠ c2 then (c1 : Int) - (c2 : Int)
    else if c1 = 0 then 0
    else strncmp s1.tail s2.tail n

/-- The C conversion `(unsigned char) x` of a `long`. -/
def to_uchar (x : Int) : Nat := (x % 256).toNat

/-- A store of the integer `x` into an unsigned bit-field of `w` bits. -/
def to_bits (w : Nat) (x : Int) : Nat := (x % (2 : Int) ^ w).toNat

/-- The C operator `!` applied to an `int`. -/
def lnot (x : Int) : Int := if x = 0 then 1 else 0

/-! ## Declarations of the headers -/

/-- One row of a value/name table (`struct valstr`). -/
structure valstr where
  val : Nat
  str : String
  deriving DecidableEq, Repr

/-- The network function macro used by this unit. -/
inductive NetFn where
  | IPMI_NETFN_APP
  deriving DecidableEq, Repr

/-- The command macros used by this unit, kept symbolic. -/
inductive Cmd where
  | IPMI_GET_CHANNEL_AUTH_CAP
  | IPMI_GET_CHANNEL_INFO
  | IPMI_GET_CHANNEL_ACCESS
  | IPMI_GET_USER_ACCESS
  | IPMI_SET_USER_ACCESS
  | IPMI_GET_USER_NAME
  deriving DecidableEq, Repr

/-- Modelled from the spec: `struct set_user_access_data` (the spec's
UserMutationRequest) is declared in `ipmitool/ipmi_channel.h`, which is not
among the sources.  The named fields are kept; the flags are one-bit fields,
`channel` has 4 bits, `user_id` 6 bits, `privilege_limit` and `session_limit`
4 bits each.  The reserved padding bits are not modelled. -/
structure set_user_access_data where
  change_bits : Nat
  callin_callback : Nat
  link_auth : Nat
  ipmi_messaging : Nat
  channel : Nat
  user_id : Nat
  privilege_limit : Nat
  session_limit : Nat
  deriving DecidableEq, Repr

/-- What `req.msg.data` points at: a byte buffer (its first `data_len` bytes),
or the `set_user_access_data` structure. -/
inductive rq_data where
  | bytes (b : List Nat)
  | set_access (s : set_user_access_data)
  deriving DecidableEq, Repr

/-- The request message (`struct ipmi_rq`, field `msg`). -/
structure ipmi_rq where
  netfn : NetFn
  cmd : Cmd
  data : rq_data
  data_len : Nat
  deriving DecidableEq, Repr

/-- The response (`struct ipmi_rs`): completion code and data bytes. -/
structure ipmi_rs where
  ccode : Nat
  data : List Nat
  deriving DecidableEq, Repr

/-- The log levels used by this unit. -/
inductive LogLevel where
  | LOG_ERR
  | LOG_NOTICE
  | LOG_DEBUG
  deriving DecidableEq, Repr

/-- An argument of a `printf` / `lprintf` call. -/
inductive Arg where
  | num (v : Int)
  | str (s : String)
  | buf (b : List Nat)
  deriving DecidableEq, Repr

/-- One output call: the format string and its arguments. -/
inductive Event where
  | printf (fmt : String) (args : List Arg)
  | lprintf (level : LogLevel) (fmt : String) (args : List Arg)
  deriving DecidableEq, Repr

/-- The interface (`struct ipmi_intf`) over a transport state `σ`: the blocking
round trip `sendrecv` (`none` is the NULL response) and the session privilege
setter `ipmi_intf_session_set_privlvl`. -/
structure ipmi_intf (σ : Type) where
  sendrecv : σ → ipmi_rq → Option ipmi_rs × σ
  session_set_privlvl : σ → Nat → σ

/-- The parts of the program outside this unit that it uses: libc `strtol`
(called as `strtol(s, NULL, 0)`), `val2str` of `helper.c`, the value/name
tables of `ipmi_strings.c` and two numeric macros. -/
structure Externals where
  strtol : cstring → Int
  val2str : Nat → List valstr → String
  ipmi_authtype_vals : List valstr
  completion_code_vals : List valstr
  ipmi_channel_medium_vals : List valstr
  ipmi_channel_protocol_vals : List valstr
  ipmi_privlvl_vals : List valstr
  IPMI_SESSION_PRIV_ADMIN : Nat
  IPMI_1_5_AUTH_TYPE_BIT_OEM : Nat

/-- The observable state threaded through every function. -/
structure World (σ : Type) where
  st : σ
  sent : List ipmi_rq
  out : List Event

/-- One call `intf->sendrecv(intf, &req)`, recorded in `sent`. -/
def send {σ : Type} (intf : ipmi_intf σ) (rq : ipmi_rq) (w : World σ) :
    Option ipmi_rs × World σ :=
  ((intf.sendrecv w.st rq).1,
    { w with st := (intf.sendrecv w.st rq).2, sent := w.sent ++ [rq] })

/-- One call of `printf`. -/
def printf {σ : Type} (fmt : String) (args : List Arg) (w : World σ) : World σ :=
  { w with out := w.out ++ [Event.printf fmt args] }

/-- One call of `lprintf`. -/
def lprintf {σ : Type} (level : LogLevel) (fmt : String) (args : List Arg)
    (w : World σ) : World σ :=
  { w with out := w.out ++ [Event.lprintf level fmt args] }

/-- The call `ipmi_intf_session_set_privlvl(intf, lvl)`. -/
def ipmi_intf_session_set_privlvl {σ : Type} (intf : ipmi_intf σ) (lvl : Nat)
    (w : World σ) : World σ :=
  { w with st := intf.session_set_privlvl w.st lvl }

/-- The test `(rsp == NULL) || (rsp->ccode > 0)`. -/
def rsp_failed : Option ipmi_rs → Bool
  | none => true
  | some rsp => decide (rsp.ccode > 0)

/-- Byte `i` of a response buffer. -/
def byte_at (d : List Nat) (i : Nat) : Nat := d.getD i 0 % 256

/-! ## Response layouts -/

/-- Modelled from the spec: `struct get_channel_auth_cap_rsp` (the spec's
AuthCapability) is declared in `ipmitool/ipmi_channel.h`, which is not among
the sources.  Its fields are those the unit reads. -/
structure get_channel_auth_cap_rsp where
  channel_number : Nat
  enabled_auth_types : Nat
  v20_data_available : Nat
  kg_status : Nat
  per_message_auth : Nat
  user_level_auth : Nat
  non_null_usernames : Nat
  null_usernames : Nat
  anon_login_enabled : Nat
  ipmiv15_support : Nat
  ipmiv20_support : Nat
  oem_id : List Nat
  oem_aux_data : Nat
  deriving DecidableEq, Repr

/-- Modelled from the spec: the overlay `memcpy(&auth_cap, rsp->data, ...)`.
The header fixing the bit positions is absent; they are those of the IPMI
Get Channel Authentication Capabilities response (6-bit auth-type mask,
bit 7 of the same byte for the v2.0 flag, three raw bytes of OEM id). -/
def get_channel_auth_cap_rsp.decode (d : List Nat) : get_channel_auth_cap_rsp where
  channel_number := byte_at d 0
  enabled_auth_types := byte_at d 1 % 64
  v20_data_available := byte_at d 1 / 128 % 2
  kg_status := byte_at d 2 / 32 % 2
  per_message_auth := byte_at d 2 / 16 % 2
  user_level_auth := byte_at d 2 / 8 % 2
  non_null_usernames := byte_at d 2 / 4 % 2
  null_usernames := byte_at d 2 / 2 % 2
  anon_login_enabled := byte_at d 2 % 2
  ipmiv15_support := byte_at d 3 % 2
  ipmiv20_support := byte_at d 3 / 2 % 2
  oem_id := [byte_at d 4, byte_at d 5, byte_at d 6]
  oem_aux_data := byte_at d 7

/-- Modelled from the spec: `struct get_channel_info_rsp` (the spec's
ChannelInfo), declared in the absent `ipmitool/ipmi_channel.h`;
`session_support` is the 2-bit field the spec names. -/
structure get_channel_info_rsp where
  channel_number : Nat
  channel_medium : Nat
  channel_protocol : Nat
  session_support : Nat
  active_sessions : Nat
  vendor_id : List Nat
  deriving DecidableEq, Repr

/-- Modelled from the spec: the overlay `memcpy(&channel_info, rsp->data, ...)`
with the bit positions of the IPMI Get Channel Info response: the top two
bits of the fourth byte are `session_support`, the low six
`active_sessions`. -/
def get_channel_info_rsp.decode (d : List Nat) : get_channel_info_rsp where
  channel_number := byte_at d 0 % 16
  channel_medium := byte_at d 1 % 128
  channel_protocol := byte_at d 2 % 32
  session_support := byte_at d 3 / 64 % 4
  active_sessions := byte_at d 3 % 64
  vendor_id := [byte_at d 4, byte_at d 5, byte_at d 6]

/-- Modelled from the spec: `struct get_channel_access_rsp` (the spec's
ChannelAccess), declared in the absent `ipmitool/ipmi_channel.h`. -/
structure get_channel_access_rsp where
  alerting : Nat
  per_message_auth : Nat
  user_level_auth : Nat
  access_mode : Nat
  channel_priv_limit : Nat
  deriving DecidableEq, Repr

/-- Modelled from the spec: the overlay `memcpy(&channel_access, rsp->data, ...)`
with the bit positions of the IPMI Get Channel Access response (access mode
in the low three bits of the first byte). -/
def get_channel_access_rsp.decode (d : List Nat) : get_channel_access_rsp where
  alerting := byte_at d 0 / 32 % 2
  per_message_auth := byte_at d 0 / 16 % 2
  user_level_auth := byte_at d 0 / 8 % 2
  access_mode := byte_at d 0 % 8
  channel_priv_limit := byte_at d 1 % 16

/-- Modelled from the spec: `struct get_user_access_rsp` (the spec's
UserAccessRecord), declared in the absent `ipmitool/ipmi_channel.h`. -/
structure get_user_access_rsp where
  max_user_ids : Nat
  enabled_user_ids : Nat
  fixed_user_ids : Nat
  callin_callback : Nat
  link_auth : Nat
  ipmi_messaging : Nat
  privilege_limit : Nat
  deriving DecidableEq, Repr

/-- Modelled from the spec: the overlay `memcpy(&user_access, rsp->data, ...)`
with the bit positions of the IPMI Get User Access response: three 6-bit
counts, then one byte holding the three flags and the 4-bit privilege. -/
def get_user_access_rsp.decode (d : List Nat) : get_user_access_rsp where
  max_user_ids := byte_at d 0 % 64
  enabled_user_ids := byte_at d 1 % 64
  fixed_user_ids := byte_at d 2 % 64
  callin_callback := byte_at d 3 / 64 % 2
  link_auth := byte_at d 3 / 32 % 2
  ipmi_messaging := byte_at d 3 / 16 % 2
  privilege_limit := byte_at d 3 % 16

/-! ## `ipmi_1_5_authtypes` and `ipmi_get_channel_auth_cap` -/

/-- The loop of `ipmi_1_5_authtypes` over the rows from index `i` on, `acc`
being the buffer `supportedTypes`; the row with `val == 0` ends the table. -/
def ipmi_1_5_authtypes_loop (n : Nat) : List valstr → String → String
  | [], acc => acc
  | e :: rest, acc =>
    if e.val = 0 then acc
    else if n &&& e.val ≠ 0 then
      ipmi_1_5_authtypes_loop n rest ((acc ++ e.str) ++ " ")
    else ipmi_1_5_authtypes_loop n rest acc

/-- The string describing the authentication types enabled in `n`
(`ipmi_1_5_authtypes`), over the table `ipmi_authtype_vals`. -/
def ipmi_1_5_authtypes (ipmi_authtype_vals : List valstr) (n : Nat) : String :=
  ipmi_1_5_authtypes_loop n ipmi_authtype_vals ""

/-- The C conditional `c ? a : b` on an integer condition. -/
def cond_str (c : Nat) (a b : String) : String := if c ≠ 0 then a else b

/-- The request of `ipmi_get_channel_auth_cap` with `msg_data = {b0, b1}`. -/
def auth_cap_rq (b0 b1 : Nat) : ipmi_rq :=
  { netfn := NetFn.IPMI_NETFN_APP, cmd := Cmd.IPMI_GET_CHANNEL_AUTH_CAP,
    data := rq_data.bytes [b0, b1], data_len := 2 }

/-- The reporting part of `ipmi_get_channel_auth_cap` (from the `memcpy` to
`return 0`). -/
def ipmi_get_channel_auth_cap_report {σ : Type} (E : Externals) (rsp : ipmi_rs)
    (w : World σ) : Int × World σ :=
  let auth_cap := get_channel_auth_cap_rsp.decode rsp.data
  let w := printf "Channel number             : %d\n" [Arg.num auth_cap.channel_number] w
  let w := printf "IPMI v1.5  auth types      : %s\n"
    [Arg.str (ipmi_1_5_authtypes E.ipmi_authtype_vals auth_cap.enabled_auth_types)] w
  let w :=
    if auth_cap.v20_data_available ≠ 0 then
      printf "KG status                  : %s\n"
        [Arg.str (cond_str auth_cap.kg_status "non-zero" "default (all zeroes)")] w
    else w
  let w := printf "Per message authentication : %sabled\n"
    [Arg.str (cond_str auth_cap.per_message_auth "en" "dis")] w
  let w := printf "User level authentication  : %sabled\n"
    [Arg.str (cond_str auth_cap.user_level_auth "en" "dis")] w
  let w := printf "Non-null user names exist  : %s\n"
    [Arg.str (cond_str auth_cap.non_null_usernames "yes" "no")] w
  let w := printf "Null user names exist      : %s\n"
    [Arg.str (cond_str auth_cap.null_usernames "yes" "no")] w
  let w := printf "Anonymous login enabled    : %s\n"
    [Arg.str (cond_str auth_cap.anon_login_enabled "yes" "no")] w
  let w :=
    if auth_cap.v20_data_available ≠ 0 then
      printf "Channel supports IPMI v2.0 : %s\n"
        [Arg.str (cond_str auth_cap.ipmiv20_support "yes" "no")]
        (printf "Channel supports IPMI v1.5 : %s\n"
          [Arg.str (cond_str auth_cap.ipmiv15_support "yes" "no")] w)
    else w
  let w :=
    if auth_cap.enabled_auth_types &&& E.IPMI_1_5_AUTH_TYPE_BIT_OEM ≠ 0 then
      printf "OEM Auxiliary Data         : 0x%x\n" [Arg.num auth_cap.oem_aux_data]
        (printf "IANA Number for OEM        : %d\n"
          [Arg.num ((auth_cap.oem_id.getD 0 0 ||| auth_cap.oem_id.getD 1 0 <<< 8
            ||| auth_cap.oem_id.getD 2 0 <<< 16 : Nat) : Int)] w)
    else w
  (0, w)

/-- The body of the retry branch of `ipmi_get_channel_auth_cap`: bit 7 of
`msg_data[0]` is cleared and the same request is sent again. -/
def ipmi_get_channel_auth_cap_retry {σ : Type} (E : Externals) (intf : ipmi_intf σ)
    (msg_data0 msg_data1 : Nat) (w1 : World σ) : Int × World σ :=
  let msg_data0 := msg_data0 &&& 0x7F
  match send intf (auth_cap_rq msg_data0 msg_data1) w1 with
  | (none, w2) =>
    (-1, lprintf LogLevel.LOG_ERR
      "Unable to Get Channel Authentication Capabilities" [] w2)
  | (some rsp2, w2) =>
    if rsp2.ccode > 0 then
      (-1, lprintf LogLevel.LOG_ERR
        "Get Channel Authentication Capabilities failed: %s"
        [Arg.str (E.val2str rsp2.ccode E.completion_code_vals)] w2)
    else ipmi_get_channel_auth_cap_report E rsp2 w2

/-- The function `ipmi_get_channel_auth_cap`: 0 on success, -1 on failure. -/
def ipmi_get_channel_auth_cap {σ : Type} (E : Externals) (intf : ipmi_intf σ)
    (channel priv : Nat) (w : World σ) : Int × World σ :=
  let msg_data0 := (channel ||| 0x80) % 256
  let msg_data1 := priv % 256
  match send intf (auth_cap_rq msg_data0 msg_data1) w with
  | (none, w1) => ipmi_get_channel_auth_cap_retry E intf msg_data0 msg_data1 w1
  | (some rsp, w1) =>
    if rsp.ccode > 0 then
      ipmi_get_channel_auth_cap_retry E intf msg_data0 msg_data1 w1
    else ipmi_get_channel_auth_cap_report E rsp w1

/-! ## `ipmi_get_channel_info` -/

/-- The request Get Channel Info, whose data is the one byte `channel`. -/
def channel_info_rq (channel : Nat) : ipmi_rq :=
  { netfn := NetFn.IPMI_NETFN_APP, cmd := Cmd.IPMI_GET_CHANNEL_INFO,
    data := rq_data.bytes [channel % 256], data_len := 1 }

/-- The request Get Channel Access with `rqdata = {b0, b1}`. -/
def channel_access_rq (b0 b1 : Nat) : ipmi_rq :=
  { netfn := NetFn.IPMI_NETFN_APP, cmd := Cmd.IPMI_GET_CHANNEL_ACCESS,
    data := rq_data.bytes [b0, b1], data_len := 2 }

/-- The `switch (channel_info.session_support)` of `ipmi_get_channel_info`. -/
def session_support_str (session_support : Nat) : String :=
  if session_support = 0x00 then "session-less\n"
  else if session_support = 0x40 then "single-session\n"
  else if session_support = 0x80 then "multi-session\n"
  else "session-based\n"

/-- The `switch (channel_access.access_mode)` of `ipmi_get_channel_info`
(the same text in both sections). -/
def access_mode_str (access_mode : Nat) : String :=
  if access_mode = 0 then "disabled\n"
  else if access_mode = 1 then "pre-boot only\n"
  else if access_mode = 2 then "always available\n"
  else if access_mode = 3 then "shared\n"
  else "unknown\n"

/-- The lines printed for one decoded Get Channel Access response, under the
section title `title`. -/
def channel_access_report {σ : Type} (title : String) (rsp : ipmi_rs)
    (w : World σ) : World σ :=
  let channel_access := get_channel_access_rsp.decode rsp.data
  let w := printf title [] w
  let w := printf "    Alerting            : %sabled\n"
    [Arg.str (cond_str channel_access.alerting "dis" "en")] w
  let w := printf "    Per-message Auth    : %sabled\n"
    [Arg.str (cond_str channel_access.per_message_auth "dis" "en")] w
  let w := printf "    User Level Auth     : %sabled\n"
    [Arg.str (cond_str channel_access.user_level_auth "dis" "en")] w
  let w := printf "    Access Mode         : " [] w
  printf (access_mode_str channel_access.access_mode) [] w

/-- The lines printed for the decoded Get Channel Info response. -/
def channel_info_report {σ : Type} (E : Externals) (rsp : ipmi_rs)
    (w : World σ) : World σ :=
  let channel_info := get_channel_info_rsp.decode rsp.data
  let w := printf "Channel 0x%x info:\n" [Arg.num channel_info.channel_number] w
  let w := printf "  Channel Medium Type   : %s\n"
    [Arg.str (E.val2str channel_info.channel_medium E.ipmi_channel_medium_vals)] w
  let w := printf "  Channel Protocol Type : %s\n"
    [Arg.str (E.val2str channel_info.channel_protocol E.ipmi_channel_protocol_vals)] w
  let w := printf "  Session Support       : " [] w
  let w := printf (session_support_str channel_info.session_support) [] w
  let w := printf "  Active Session Count  : %d\n" [Arg.num channel_info.active_sessions] w
  printf "  Protocol Vendor ID    : %d\n"
    [Arg.num ((channel_info.vendor_id.getD 0 0 ||| channel_info.vendor_id.getD 1 0 <<< 8
      ||| channel_info.vendor_id.getD 2 0 <<< 16 : Nat) : Int)] w

/-- The function `ipmi_get_channel_info`: 0 on success, -1 on failure. -/
def ipmi_get_channel_info {σ : Type} (E : Externals) (intf : ipmi_intf σ)
    (channel : Nat) (w : World σ) : Int × World σ :=
  match send intf (channel_info_rq channel) w with
  | (none, w1) => (-1, lprintf LogLevel.LOG_ERR "Unable to Get Channel Info" [] w1)
  | (some rsp, w1) =>
    if rsp.ccode > 0 then
      (-1, lprintf LogLevel.LOG_ERR "Get Channel Info failed: %s"
        [Arg.str (E.val2str rsp.ccode E.completion_code_vals)] w1)
    else
      let w1 := channel_info_report E rsp w1
      let rqdata0 := channel &&& 0xf
      match send intf (channel_access_rq rqdata0 0x80) w1 with
      | (none, w2) =>
        (-1, lprintf LogLevel.LOG_ERR "Unable to Get Channel Access (volatile)" [] w2)
      | (some rsp, w2) =>
        if rsp.ccode > 0 then
          (-1, lprintf LogLevel.LOG_ERR "Get Channel Access (volatile) failed: %s"
            [Arg.str (E.val2str rsp.ccode E.completion_code_vals)] w2)
        else
          let w2 := channel_access_report "  Volatile(active) Settings\n" rsp w2
          match send intf (channel_access_rq rqdata0 0x40) w2 with
          | (none, w3) =>
            (-1, lprintf LogLevel.LOG_ERR
              "Unable to Get Channel Access (non-volatile)" [] w3)
          | (some rsp, w3) =>
            if rsp.ccode > 0 then
              (-1, lprintf LogLevel.LOG_ERR
                "Get Channel Access (non-volatile) failed: %s"
                [Arg.str (E.val2str rsp.ccode E.completion_code_vals)] w3)
            else (0, channel_access_report "  Non-Volatile Settings\n" rsp w3)

/-! ## `ipmi_get_user_access` -/

/-- The request `req1` of `ipmi_get_user_access` (Get User Access) with
`rqdata = {b0, b1}`. -/
def user_access_rq (b0 b1 : Nat) : ipmi_rq :=
  { netfn := NetFn.IPMI_NETFN_APP, cmd := Cmd.IPMI_GET_USER_ACCESS,
    data := rq_data.bytes [b0, b1], data_len := 2 }

/-- The request `req2` of `ipmi_get_user_access` (Get User Name), whose data is
the first byte of `rqdata`. -/
def user_name_rq (b0 : Nat) : ipmi_rq :=
  { netfn := NetFn.IPMI_NETFN_APP, cmd := Cmd.IPMI_GET_USER_NAME,
    data := rq_data.bytes [b0], data_len := 1 }

/-- The lines printed for one user id by `ipmi_get_user_access`; `name` is the
data of the Get User Name response. -/
def user_access_report {σ : Type} (E : Externals) (curr_uid : Nat)
    (user_access : get_user_access_rsp) (name : List Nat) (w : World σ) : World σ :=
  let w := printf "\n" [] w
  let w := printf "User ID              : %d\n" [Arg.num curr_uid] w
  let w := printf "User Name            : %s\n" [Arg.buf name] w
  let w := printf "Fixed Name           : %s\n"
    [Arg.str (if curr_uid ≤ user_access.fixed_user_ids then "Yes" else "No")] w
  let w := printf "Access Available     : %s\n"
    [Arg.str (cond_str user_access.callin_callback "callback" "call-in / callback")] w
  let w := printf "Link Authentication  : %sabled\n"
    [Arg.str (cond_str user_access.link_auth "en" "dis")] w
  let w := printf "IPMI Messaging       : %sabled\n"
    [Arg.str (cond_str user_access.ipmi_messaging "en" "dis")] w
  printf "Privilege Level      : %s\n"
    [Arg.str (E.val2str user_access.privilege_limit E.ipmi_privlvl_vals)] w

/-- The `do ... while (!userid && curr_uid <= max_uid)` loop of
`ipmi_get_user_access`, entered with the locals `curr_uid`, `max_uid`, `init`.
One unit of fuel is spent per iteration; `none` means the fuel ran out. -/
def ipmi_get_user_access_loop {σ : Type} (E : Externals) (intf : ipmi_intf σ)
    (channel userid : Nat) :
    Nat → Nat → Nat → Bool → World σ → Option (Int × World σ)
  | 0, _, _, _, _ => none
  | fuel + 1, curr_uid, max_uid, init, w =>
    let rqdata0 := channel &&& 0xf
    let rqdata1 := curr_uid &&& 0x3f
    match send intf (user_access_rq rqdata0 rqdata1) w with
    | (none, w1) =>
      some (-1, lprintf LogLevel.LOG_ERR "Unable to Get User Access (channel %d id %d)"
        [Arg.num rqdata0, Arg.num rqdata1] w1)
    | (some rsp, w1) =>
      if rsp.ccode > 0 then
        some (-1, lprintf LogLevel.LOG_ERR "Get User Access (channel %d id %d) failed: %s"
          [Arg.num rqdata0, Arg.num rqdata1,
            Arg.str (E.val2str rsp.ccode E.completion_code_vals)] w1)
      else
        let user_access := get_user_access_rsp.decode rsp.data
        let rqdata0 := curr_uid &&& 0x3f
        match send intf (user_name_rq rqdata0) w1 with
        | (none, w2) =>
          some (-1, lprintf LogLevel.LOG_ERR "Unable to Get User Name (id %d)"
            [Arg.num rqdata0] w2)
        | (some rsp, w2) =>
          if rsp.ccode > 0 then
            some (-1, lprintf LogLevel.LOG_ERR "Get User Name (id %d) failed: %s"
              [Arg.num rqdata0, Arg.str (E.val2str rsp.ccode E.completion_code_vals)] w2)
          else
            let w3 :=
              if init then
                printf "Enabled User IDs     : %d\n" [Arg.num user_access.enabled_user_ids]
                  (printf "Maximum User IDs     : %d\n" [Arg.num user_access.max_user_ids] w2)
              else w2
            let max_uid := if init then user_access.max_user_ids else max_uid
            let w4 := user_access_report E curr_uid user_access rsp.data w3
            let curr_uid := curr_uid + 1
            if userid = 0 ∧ curr_uid ≤ max_uid then
              ipmi_get_user_access_loop E intf channel userid fuel curr_uid max_uid false w4
            else some (0, w4)

/-- The function `ipmi_get_user_access`: 0 on success, -1 on failure (`none`
when `fuel` iterations did not suffice). -/
def ipmi_get_user_access {σ : Type} (E : Externals) (intf : ipmi_intf σ)
    (fuel : Nat) (channel userid : Nat) (w : World σ) : Option (Int × World σ) :=
  let w := ipmi_intf_session_set_privlvl intf E.IPMI_SESSION_PRIV_ADMIN w
  let curr_uid := if userid ≠ 0 then userid else 1
  ipmi_get_user_access_loop E intf channel userid fuel curr_uid 0 true w

/-! ## `printf_channel_usage` -/

/-- The function `printf_channel_usage`. -/
def printf_channel_usage {σ : Type} (w : World σ) : World σ :=
  let w := lprintf LogLevel.LOG_NOTICE
    "Channel Commands: authcap   <channel number> <max privilege>" [] w
  let w := lprintf LogLevel.LOG_NOTICE
    "                  getaccess <channel number> [user id]" [] w
  let w := lprintf LogLevel.LOG_NOTICE
    ("                  setaccess <channel number> " ++
      "<user id> [callin=on|off] [ipmi=on|off] [link=on|off] [privilege=level]") [] w
  let w := lprintf LogLevel.LOG_NOTICE
    "                  info      [channel number]\n" [] w
  let w := lprintf LogLevel.LOG_NOTICE "Possible privilege levels are:" [] w
  let w := lprintf LogLevel.LOG_NOTICE "   1   Callback level" [] w
  let w := lprintf LogLevel.LOG_NOTICE "   2   User level" [] w
  let w := lprintf LogLevel.LOG_NOTICE "   3   Operator level" [] w
  let w := lprintf LogLevel.LOG_NOTICE "   4   Administrator level" [] w
  let w := lprintf LogLevel.LOG_NOTICE "   5   OEM Proprietary level" [] w
  lprintf LogLevel.LOG_NOTICE "  15   No access" [] w

/-! ## `ipmi_set_user_access` -/

/-- The request Set User Access: `req.msg.data` points at `set_access`,
`data_len` is 4. -/
def set_user_access_rq (set_access : set_user_access_data) : ipmi_rq :=
  { netfn := NetFn.IPMI_NETFN_APP, cmd := Cmd.IPMI_SET_USER_ACCESS,
    data := rq_data.set_access set_access, data_len := 4 }

/-- The eight assignments that fill `set_access` from the positional arguments
and the just-read `user_access`, before the option loop. -/
def set_access_init (channel userid : Nat) (user_access : get_user_access_rsp) :
    set_user_access_data :=
  { change_bits := to_bits 1 1
    callin_callback := to_bits 1 user_access.callin_callback
    link_auth := to_bits 1 user_access.link_auth
    ipmi_messaging := to_bits 1 user_access.ipmi_messaging
    channel := to_bits 4 channel
    user_id := to_bits 6 userid
    privilege_limit := to_bits 4 user_access.privilege_limit
    session_limit := to_bits 4 0 }

/-- The `for (i = 2; i < argc; i++)` loop of `ipmi_set_user_access` over the
remaining arguments: the updated `set_access`, or the argument that matched
no key. -/
def set_user_access_opts (E : Externals) :
    List cstring → set_user_access_data → Except cstring set_user_access_data
  | [], set_access => Except.ok set_access
  | arg :: rest, set_access =>
    if strncmp arg (cstr "callin=") 7 = 0 then
      set_user_access_opts E rest
        { set_access with
          callin_callback := to_bits 1 (lnot (strncmp (arg.drop 7) (cstr "off") 3)) }
    else if strncmp arg (cstr "link=") 5 = 0 then
      set_user_access_opts E rest
        { set_access with link_auth := to_bits 1 (strncmp (arg.drop 5) (cstr "off") 3) }
    else if strncmp arg (cstr "ipmi=") 5 = 0 then
      set_user_access_opts E rest
        { set_access with
          ipmi_messaging := to_bits 1 (strncmp (arg.drop 5) (cstr "off") 3) }
    else if strncmp arg (cstr "privilege=") 10 = 0 then
      set_user_access_opts E rest
        { set_access with privilege_limit := to_bits 4 (E.strtol (arg.drop 10)) }
    else Except.error arg

/-- The function `ipmi_set_user_access` on `argv` (with `argc` its length):
0 on success or after printing the usage, -1 on failure. -/
def ipmi_set_user_access {σ : Type} (E : Externals) (intf : ipmi_intf σ)
    (argv : List cstring) (w : World σ) : Int × World σ :=
  let argc := argv.length
  let w := ipmi_intf_session_set_privlvl intf E.IPMI_SESSION_PRIV_ADMIN w
  if argc < 3 ∨ strncmp (argv.getD 0 []) (cstr "help") 4 = 0 then
    (0, printf_channel_usage w)
  else
    let channel := to_uchar (E.strtol (argv.getD 0 []))
    let userid := to_uchar (E.strtol (argv.getD 1 []))
    let rqdata0 := channel &&& 0xf
    let rqdata1 := userid &&& 0x3f
    match send intf (user_access_rq rqdata0 rqdata1) w with
    | (none, w1) =>
      (-1, lprintf LogLevel.LOG_ERR "Unable to Get User Access (channel %d id %d)"
        [Arg.num rqdata0, Arg.num rqdata1] w1)
    | (some rsp, w1) =>
      if rsp.ccode > 0 then
        (-1, lprintf LogLevel.LOG_ERR "Get User Access (channel %d id %d) failed: %s"
          [Arg.num rqdata0, Arg.num rqdata1,
            Arg.str (E.val2str rsp.ccode E.completion_code_vals)] w1)
      else
        let user_access := get_user_access_rsp.decode rsp.data
        let set_access := set_access_init channel userid user_access
        match set_user_access_opts E (argv.drop 2) set_access with
        | Except.error arg => (-1, printf "Invalid option: %s\n" [Arg.buf arg] w1)
        | Except.ok set_access =>
          match send intf (set_user_access_rq set_access) w1 with
          | (none, w2) =>
            (-1, lprintf LogLevel.LOG_ERR "Unable to Set User Access (channel %d id %d)"
              [Arg.num set_access.channel, Arg.num set_access.user_id] w2)
          | (some rsp, w2) =>
            if rsp.ccode > 0 then
              (-1, lprintf LogLevel.LOG_ERR "Set User Access (channel %d id %d) failed: %s"
                [Arg.num set_access.channel, Arg.num set_access.user_id,
                  Arg.str (E.val2str rsp.ccode E.completion_code_vals)] w2)
            else (0, w2)

/-! ## `ipmi_get_channel_medium` and `ipmi_channel_main` -/

/-- The function `ipmi_get_channel_medium`; its `return -1` is converted to
the `unsigned char` result type. -/
def ipmi_get_channel_medium {σ : Type} (E : Externals) (intf : ipmi_intf σ)
    (channel : Nat) (w : World σ) : Nat × World σ :=
  match send intf (channel_info_rq channel) w with
  | (none, w1) =>
    (to_uchar (-1), lprintf LogLevel.LOG_ERR "Get Channel Info command failed" [] w1)
  | (some rsp, w1) =>
    if rsp.ccode > 0 then
      (to_uchar (-1), lprintf LogLevel.LOG_ERR "Get Channel Info command failed: %s"
        [Arg.str (E.val2str rsp.ccode E.completion_code_vals)] w1)
    else
      let info := get_channel_info_rsp.decode rsp.data
      (info.channel_medium, lprintf LogLevel.LOG_DEBUG "Channel type: %s"
        [Arg.str (E.val2str info.channel_medium E.ipmi_channel_medium_vals)] w1)

/-- The function `ipmi_current_channel_medium`. -/
def ipmi_current_channel_medium {σ : Type} (E : Externals) (intf : ipmi_intf σ)
    (w : World σ) : Nat × World σ :=
  ipmi_get_channel_medium E intf 0xE w

/-- The function `ipmi_channel_main` on `argv` (with `argc` its length); `fuel`
is handed to `ipmi_get_user_access`, the only callee that can return `none`. -/
def ipmi_channel_main {σ : Type} (E : Externals) (intf : ipmi_intf σ) (fuel : Nat)
    (argv : List cstring) (w : World σ) : Option (Int × World σ) :=
  let argc := argv.length
  let retval : Int := 0
  if argc = 0 ∨ strncmp (argv.getD 0 []) (cstr "help") 4 = 0 then
    some (retval, printf_channel_usage w)
  else if strncmp (argv.getD 0 []) (cstr "authcap") 7 = 0 then
    if argc ≠ 3 then some (retval, printf_channel_usage w)
    else
      some (ipmi_get_channel_auth_cap E intf
        (to_uchar (E.strtol (argv.getD 1 []))) (to_uchar (E.strtol (argv.getD 2 []))) w)
  else if strncmp (argv.getD 0 []) (cstr "getaccess") 10 = 0 then
    if argc < 2 ∨ argc > 3 then some (retval, printf_channel_usage w)
    else
      let ch := to_uchar (E.strtol (argv.getD 1 []))
      let id := if argc = 3 then to_uchar (E.strtol (argv.getD 2 [])) else 0
      ipmi_get_user_access E intf fuel ch id w
  else if strncmp (argv.getD 0 []) (cstr "setaccess") 9 = 0 then
    some (ipmi_set_user_access E intf (argv.drop 1) w)
  else if strncmp (argv.getD 0 []) (cstr "info") 4 = 0 then
    if argc > 2 then some (retval, printf_channel_usage w)
    else
      let ch := if argc = 2 then to_uchar (E.strtol (argv.getD 1 [])) else 0xe
      some (ipmi_get_channel_info E intf ch w)
  else
    let w := printf "Invalid CHANNEL command: %s\n" [Arg.buf (argv.getD 0 [])] w
    let w := printf_channel_usage w
    some (-1, w)

/-! ## Concrete collaborators for closed examples -/

/-- A stand-in for `val2str`: the name of the first row holding `val`. -/
def demo_val2str (val : Nat) : List valstr → String
  | [] => "Unknown"
  | e :: rest => if e.val = val then e.str else demo_val2str val rest

/-- A stand-in for `strtol(s, NULL, 0)` on decimal digits: the value of the
leading run of digits. -/
def demo_strtol (s : cstring) : Int :=
  ((s.takeWhile (fun c => 48 ≤ c ∧ c ≤ 57)).foldl (fun acc c => acc * 10 + (c - 48)) 0 : Nat)

/-- A concrete set of external parts, used only in closed examples. -/
def demo_externals : Externals where
  strtol := demo_strtol
  val2str := demo_val2str
  ipmi_authtype_vals :=
    [⟨0x01, "NONE"⟩, ⟨0x02, "MD2"⟩, ⟨0x04, "MD5"⟩, ⟨0x10, "PASSWORD"⟩, ⟨0x20, "OEM"⟩, ⟨0, ""⟩]
  completion_code_vals := [⟨0x00, "Command completed normally"⟩]
  ipmi_channel_medium_vals := []
  ipmi_channel_protocol_vals := []
  ipmi_privlvl_vals := []
  IPMI_SESSION_PRIV_ADMIN := 4
  IPMI_1_5_AUTH_TYPE_BIT_OEM := 0x20

/-- A transport that answers every request with the same response `r`. -/
def const_intf (r : Option ipmi_rs) : ipmi_intf Unit where
  sendrecv := fun s _ => (r, s)
  session_set_privlvl := fun s _ => s

/-- A transport that plays a script: the k-th round trip gets the k-th entry,
and no response once the script is used up. -/
def script_intf : ipmi_intf (List (Option ipmi_rs)) where
  sendrecv := fun s _ => (s.headD none, s.tail)
  session_set_privlvl := fun s _ => s

/-- The empty world over a transport state. -/
def World.init {σ : Type} (s : σ) : World σ := { st := s, sent := [], out := [] }

/-! ## Observations used in the statements -/

/-- The argument lists of the `printf` calls whose format string is `fmt`, in
the order of the calls. -/
def printed (fmt : String) : List Event → List (List Arg)
  | [] => []
  | Event.printf f args :: rest =>
    if f = fmt then args :: printed fmt rest else printed fmt rest
  | Event.lprintf _ _ _ :: rest => printed fmt rest

/-- The number of requests in a list that carry the command `c`. -/
def count_cmd (c : Cmd) (l : List ipmi_rq) : Nat := (l.filter (fun rq => rq.cmd = c)).length

/-- The (Get User Access, Get User Name) request pair that one iteration of
`ipmi_get_user_access` issues for `curr_uid`. -/
def user_pair (channel curr_uid : Nat) : List ipmi_rq :=
  [user_access_rq (channel &&& 0xf) (curr_uid &&& 0x3f), user_name_rq (curr_uid &&& 0x3f)]

/-- A transport that always succeeds: every round trip yields a response whose
completion code is 0. -/
def always_succeeds {σ : Type} (intf : ipmi_intf σ) : Prop :=
  ∀ s rq, ∃ rs, (intf.sendrecv s rq).1 = some rs ∧ rs.ccode = 0

/-- A Get User Access response reporting 5 user ids, 3 of them enabled. -/
def demo_user_rs : ipmi_rs := { ccode := 0, data := [5, 3, 2, 0x34] }

/-- A response whose bytes are all zero: it reports `max_user_ids = 0`. -/
def zero_user_rs : ipmi_rs := { ccode := 0, data := [0, 0, 0, 0] }

/-- The token begins with one of the four keys `callin=`, `link=`, `ipmi=`,
`privilege=`. -/
def has_known_key (t : cstring) : Prop :=
  t.take 7 = cstr "callin=" ∨ t.take 5 = cstr "link=" ∨ t.take 5 = cstr "ipmi=" ∨
    t.take 10 = cstr "privilege="

instance has_known_key_decidable (t : cstring) : Decidable (has_known_key t) := by
  unfold has_known_key
  infer_instance

/-- A Get User Access response whose flag byte has `callin_callback` set. -/
def callin_user_rs : ipmi_rs := { ccode := 0, data := [5, 3, 2, 0x74] }

/-- The argument-count errors of the dispatcher: `authcap` with an argument
count other than channel + privilege, `getaccess` with no channel or with more
than channel + id, `info` with more than one argument. -/
def usage_error (argv : List cstring) : Prop :=
  (∃ args, argv = cstr "authcap" :: args ∧ args.length ≠ 2) ∨
  (∃ args, argv = cstr "getaccess" :: args ∧ (args.length = 0 ∨ 2 < args.length)) ∨
  (∃ args, argv = cstr "info" :: args ∧ 1 < args.length)

/-- A Get Channel Info / Get Channel Access response used in closed examples:
its fourth byte is `0x40` (the IPMI encoding of single-session support). -/
def demo_channel_rs : ipmi_rs := { ccode := 0, data := [0x0e, 0x04, 0x01, 0x40, 0xf2, 0x1b, 0x00] }

/-- A Get Channel Info response whose fourth byte is `0x80` (the IPMI encoding
of multi-session support). -/
def multi_channel_rs : ipmi_rs := { ccode := 0, data := [0x0e, 0x04, 0x01, 0x80, 0xf2, 0x1b, 0x00] }

/-- The rows of a zero-terminated table that come before its terminator (the
first row whose `val` is 0). -/
def table_rows (tbl : List valstr) : List valstr := tbl.takeWhile (fun e => e.val ≠ 0)

/-- The names of the rows of the table whose value has a bit in common with
`n`, in table order. -/
def matching_names (tbl : List valstr) (n : Nat) : List String :=
  ((table_rows tbl).filter (fun e => n &&& e.val ≠ 0)).map (fun e => e.str)

/-- Reading a string separator by separator: `cur` holds the characters read
since the last separator; each separator `' '` closes one name. -/
def read_names : List Char → List Char → List (List Char)
  | _, [] => []
  | cur, c :: rest =>
    if c = ' ' then cur :: read_names [] rest else read_names (cur ++ [c]) rest

/-- The state of the transport after the round trips for the requests `l`, in
order, started in state `s`. -/
def run_state {σ : Type} (intf : ipmi_intf σ) : σ → List ipmi_rq → σ
  | s, [] => s
  | s, rq :: rest => run_state intf (intf.sendrecv s rq).2 rest

/-- The responses the transport gives to the requests `l`, in order, started in
state `s`. -/
def responses {σ : Type} (intf : ipmi_intf σ) : σ → List ipmi_rq → List (Option ipmi_rs)
  | _, [] => []
  | s, rq :: rest => (intf.sendrecv s rq).1 :: responses intf (intf.sendrecv s rq).2 rest

/-- Fail-fast, for a command that returned `r` after the round trips answered by
`rs`: if a round trip failed (index `k`, counted from 0), then `r` is -1 and
that round trip was the last one, so `k + 1` requests were issued in all. -/
def fail_fast (r : Int) (rs : List (Option ipmi_rs)) : Prop :=
  ∀ k, k < rs.length → rsp_failed (rs.getD k none) = true → r = -1 ∧ rs.length = k + 1

/-- The requests of `j` complete iterations of the loop of
`ipmi_get_user_access`, for the ids `start, start + 1, ...`. -/
def user_pairs (channel start j : Nat) : List ipmi_rq :=
  (List.range' start j).flatMap (user_pair channel)

/-- The max_user_ids reported by a response, 0 when there is no response. -/
def reported_max_user_ids (rsp : Option ipmi_rs) : Nat :=
  match rsp with
  | some rs => (get_user_access_rsp.decode rs.data).max_user_ids
  | none => 0

/-- The requests of a run of the loop of `ipmi_get_user_access` that entered
`j` iterations, the first for id `start`: `j` complete pairs, or `j - 1` pairs
and the Get User Access request of the iteration that failed on it. -/
def loop_requests (channel start j : Nat) (l : List ipmi_rq) : Prop :=
  l = user_pairs channel start j ∨
  l = user_pairs channel start (j - 1) ++
    [user_access_rq (channel &&& 0xf) ((start + (j - 1)) &&& 0x3f)]

/-- A script in which the first round trip succeeds (reporting 5 user ids) and
the second gets no response. -/
def fail_second_script : List (Option ipmi_rs) := [some demo_user_rs, none]

/-- The channel number a request carries, if it carries one: the first data
byte of the channel and user-access requests (without its bit 7, the v2 data
flag, for the authentication-capabilities request) and the `channel` field of
the Set User Access structure. -/
def rq_channel (rq : ipmi_rq) : Option Nat :=
  match rq.cmd, rq.data with
  | Cmd.IPMI_GET_CHANNEL_AUTH_CAP, rq_data.bytes (b0 :: _) => some (b0 &&& 0x7F)
  | Cmd.IPMI_GET_CHANNEL_INFO, rq_data.bytes (b0 :: _) => some b0
  | Cmd.IPMI_GET_CHANNEL_ACCESS, rq_data.bytes (b0 :: _) => some b0
  | Cmd.IPMI_GET_USER_ACCESS, rq_data.bytes (b0 :: _) => some b0
  | Cmd.IPMI_SET_USER_ACCESS, rq_data.set_access s => some s.channel
  | _, _ => none

/-- The user id a request carries, if it carries one: the second data byte of
Get User Access, the first of Get User Name, the `user_id` field of the
Set User Access structure. -/
def rq_user_id (rq : ipmi_rq) : Option Nat :=
  match rq.cmd, rq.data with
  | Cmd.IPMI_GET_USER_ACCESS, rq_data.bytes (_ :: b1 :: _) => some b1
  | Cmd.IPMI_GET_USER_NAME, rq_data.bytes (b0 :: _) => some b0
  | Cmd.IPMI_SET_USER_ACCESS, rq_data.set_access s => some s.user_id
  | _, _ => none

/-! ## Theorems -/

@[simp] theorem printf_sent {σ : Type} (fmt : String) (args : List Arg) (w : World σ) :
    (printf fmt args w).sent = w.sent := rfl

@[simp] theorem printf_st {σ : Type} (fmt : String) (args : List Arg) (w : World σ) :
    (printf fmt args w).st = w.st := rfl

@[simp] theorem lprintf_sent {σ : Type} (l : LogLevel) (fmt : String) (args : List Arg)
    (w : World σ) : (lprintf l fmt args w).sent = w.sent := rfl

@[simp] theorem lprintf_st {σ : Type} (l : LogLevel) (fmt : String) (args : List Arg)
    (w : World σ) : (lprintf l fmt args w).st = w.st := rfl

@[simp] theorem send_sent {σ : Type} (intf : ipmi_intf σ) (rq : ipmi_rq) (w : World σ) :
    (send intf rq w).2.sent = w.sent ++ [rq] := rfl

@[simp] theorem send_out {σ : Type} (intf : ipmi_intf σ) (rq : ipmi_rq) (w : World σ) :
    (send intf rq w).2.out = w.out := rfl

@[simp] theorem set_privlvl_sent {σ : Type} (intf : ipmi_intf σ) (lvl : Nat) (w : World σ) :
    (ipmi_intf_session_set_privlvl intf lvl w).sent = w.sent := rfl

@[simp] theorem set_privlvl_out {σ : Type} (intf : ipmi_intf σ) (lvl : Nat) (w : World σ) :
    (ipmi_intf_session_set_privlvl intf lvl w).out = w.out := rfl

theorem printf_channel_usage_sent {σ : Type} (w : World σ) :
    (printf_channel_usage w).sent = w.sent := by
  simp only [printf_channel_usage, lprintf_sent]

theorem auth_cap_report_sent {σ : Type} (E : Externals) (rsp : ipmi_rs) (w : World σ) :
    (ipmi_get_channel_auth_cap_report E rsp w).2.sent = w.sent := by
  unfold ipmi_get_channel_auth_cap_report
  simp only []
  split_ifs <;> simp only [printf_sent]

theorem auth_cap_report_ret {σ : Type} (E : Externals) (rsp : ipmi_rs) (w : World σ) :
    (ipmi_get_channel_auth_cap_report E rsp w).1 = 0 := by
  simp only [ipmi_get_channel_auth_cap_report]

/-- The retry branch sends exactly one request, the one with bit 7 cleared. -/
theorem auth_cap_retry_sent {σ : Type} (E : Externals) (intf : ipmi_intf σ)
    (b0 b1 : Nat) (w : World σ) :
    (ipmi_get_channel_auth_cap_retry E intf b0 b1 w).2.sent
      = w.sent ++ [auth_cap_rq (b0 &&& 0x7F) b1] := by
  unfold ipmi_get_channel_auth_cap_retry
  simp only []
  have hs := send_sent intf (auth_cap_rq (b0 &&& 0x7F) b1) w
  split
  · next w2 heq => rw [heq] at hs; simpa using hs
  · next rsp2 w2 heq =>
    rw [heq] at hs
    split_ifs
    · simpa using hs
    · rw [auth_cap_report_sent]; simpa using hs

/-- The retry branch returns -1 when its round trip fails. -/
theorem auth_cap_retry_fail {σ : Type} (E : Externals) (intf : ipmi_intf σ)
    (b0 b1 : Nat) (w : World σ)
    (h : rsp_failed (send intf (auth_cap_rq (b0 &&& 0x7F) b1) w).1 = true) :
    (ipmi_get_channel_auth_cap_retry E intf b0 b1 w).1 = -1 := by
  unfold ipmi_get_channel_auth_cap_retry
  simp only []
  split
  · rfl
  · next rsp2 w2 heq =>
    rw [heq] at h
    simp only [rsp_failed, decide_eq_true_eq] at h
    simp [h]

/-- The requests added by `ipmi_get_channel_auth_cap` start with the request
carrying `channel | 0x80`. -/
theorem auth_cap_sent_head {σ : Type} (E : Externals) (intf : ipmi_intf σ)
    (channel priv : Nat) (w : World σ) :
    ∃ tl, (ipmi_get_channel_auth_cap E intf channel priv w).2.sent
      = w.sent ++ auth_cap_rq ((channel ||| 0x80) % 256) (priv % 256) :: tl := by
  unfold ipmi_get_channel_auth_cap
  simp only []
  generalize hr : send intf (auth_cap_rq ((channel ||| 0x80) % 256) (priv % 256)) w = r
  have hs := send_sent intf (auth_cap_rq ((channel ||| 0x80) % 256) (priv % 256)) w
  rw [hr] at hs
  obtain ⟨rsp, w1⟩ := r
  simp only at hs
  cases rsp with
  | none =>
    exact ⟨[_], by simp only []; rw [auth_cap_retry_sent, hs, List.append_assoc]; rfl⟩
  | some rsp1 =>
    by_cases hc : rsp1.ccode > 0
    · exact ⟨[_], by simp only [hc, if_true]; rw [auth_cap_retry_sent, hs, List.append_assoc]; rfl⟩
    · exact ⟨[], by simp only [hc, if_false]; rw [auth_cap_report_sent, hs]⟩

/-- C1: in `ipmi_get_channel_auth_cap`, when the first round trip succeeds
exactly one request is sent (no retry); when it fails (no response or nonzero
completion code) exactly one more request is sent, whose first byte is the
first attempt's byte with bit 7 cleared and whose privilege byte is the same;
when that retry fails too the result is -1; so at most two requests are
issued, whatever the transport does. -/
theorem auth_cap_retry_exactly_once {σ : Type} (E : Externals) (intf : ipmi_intf σ)
    (channel priv : Nat) (w : World σ) :
    (rsp_failed (send intf (auth_cap_rq ((channel ||| 0x80) % 256) (priv % 256)) w).1 = false →
      (ipmi_get_channel_auth_cap E intf channel priv w).2.sent
        = w.sent ++ [auth_cap_rq ((channel ||| 0x80) % 256) (priv % 256)]) ∧
    (rsp_failed (send intf (auth_cap_rq ((channel ||| 0x80) % 256) (priv % 256)) w).1 = true →
      (ipmi_get_channel_auth_cap E intf channel priv w).2.sent
        = w.sent ++ [auth_cap_rq ((channel ||| 0x80) % 256) (priv % 256),
            auth_cap_rq (((channel ||| 0x80) % 256) &&& 0x7F) (priv % 256)] ∧
      (rsp_failed (send intf (auth_cap_rq (((channel ||| 0x80) % 256) &&& 0x7F) (priv % 256))
          (send intf (auth_cap_rq ((channel ||| 0x80) % 256) (priv % 256)) w).2).1 = true →
        (ipmi_get_channel_auth_cap E intf channel priv w).1 = -1)) ∧
    (ipmi_get_channel_auth_cap E intf channel priv w).2.sent.length ≤ w.sent.length + 2 := by
  unfold ipmi_get_channel_auth_cap
  simp only []
  generalize hr : send intf (auth_cap_rq ((channel ||| 0x80) % 256) (priv % 256)) w = r
  have hs := send_sent intf (auth_cap_rq ((channel ||| 0x80) % 256) (priv % 256)) w
  rw [hr] at hs
  obtain ⟨rsp, w1⟩ := r
  simp only at hs
  cases rsp with
  | none =>
    have e1 : (ipmi_get_channel_auth_cap_retry E intf ((channel ||| 0x80) % 256) (priv % 256)
        w1).2.sent = w.sent ++ [auth_cap_rq ((channel ||| 0x80) % 256) (priv % 256),
          auth_cap_rq (((channel ||| 0x80) % 256) &&& 0x7F) (priv % 256)] := by
      rw [auth_cap_retry_sent, hs, List.append_assoc]; rfl
    refine ⟨fun h => ?_, fun _ => ⟨e1, fun h2 => auth_cap_retry_fail E intf _ _ w1 h2⟩, ?_⟩
    · simp [rsp_failed] at h
    · simp only []; rw [e1]; simp
  | some rsp1 =>
    by_cases hc : rsp1.ccode > 0
    · have e1 : (ipmi_get_channel_auth_cap_retry E intf ((channel ||| 0x80) % 256) (priv % 256)
          w1).2.sent = w.sent ++ [auth_cap_rq ((channel ||| 0x80) % 256) (priv % 256),
            auth_cap_rq (((channel ||| 0x80) % 256) &&& 0x7F) (priv % 256)] := by
        rw [auth_cap_retry_sent, hs, List.append_assoc]; rfl
      simp only [hc, if_true]
      refine ⟨fun h => ?_, fun _ => ⟨e1, fun h2 => auth_cap_retry_fail E intf _ _ w1 h2⟩, ?_⟩
      · simp [rsp_failed, hc] at h
      · rw [e1]; simp
    · simp only [hc, if_false]
      refine ⟨fun _ => ?_, fun h => ?_, ?_⟩
      · rw [auth_cap_report_sent, hs]
      · simp [rsp_failed, hc] at h
      · rw [auth_cap_report_sent, hs]; simp

/-- C1, closed instance: against a transport that never answers, channel 1 with
privilege 4 sends `[0x81, 4]`, then `[0x01, 4]`, nothing else, and returns -1. -/
theorem auth_cap_retry_exactly_once_witness :
    (ipmi_get_channel_auth_cap demo_externals (const_intf none) 1 4 (World.init ())).2.sent
        = [auth_cap_rq 0x81 4, auth_cap_rq 0x01 4] ∧
      (ipmi_get_channel_auth_cap demo_externals (const_intf none) 1 4 (World.init ())).1 = -1 :=
  ⟨((auth_cap_retry_exactly_once demo_externals (const_intf none) 1 4 (World.init ())).2.1
      rfl).1,
    ((auth_cap_retry_exactly_once demo_externals (const_intf none) 1 4 (World.init ())).2.1
      rfl).2 rfl⟩

/-- C2: for every channel 0..15 and every privilege byte, the first request of
`ipmi_get_channel_auth_cap` is a Get Channel Authentication Capabilities
request with a 2-byte payload `[(channel & 0xF) | 0x80, priv]`. -/
theorem auth_cap_first_request {σ : Type} (E : Externals) (intf : ipmi_intf σ)
    (channel priv : Nat) (w : World σ) (hch : channel < 16) (hpriv : priv < 256) :
    ((ipmi_get_channel_auth_cap E intf channel priv w).2.sent.drop w.sent.length).head?
      = some { netfn := NetFn.IPMI_NETFN_APP, cmd := Cmd.IPMI_GET_CHANNEL_AUTH_CAP,
               data := rq_data.bytes [(channel &&& 0xF) ||| 0x80, priv], data_len := 2 } := by
  have hb : (channel ||| 0x80) % 256 = (channel &&& 0xF) ||| 0x80 := by
    interval_cases channel <;> rfl
  have hp : priv % 256 = priv := Nat.mod_eq_of_lt hpriv
  obtain ⟨tl, h⟩ := auth_cap_sent_head E intf channel priv w
  rw [hb, hp] at h
  rw [h]
  simp [auth_cap_rq]

/-- C2, closed instance: channel 14 with privilege 4 first sends `[0x8E, 4]`. -/
theorem auth_cap_first_request_witness :
    ((ipmi_get_channel_auth_cap demo_externals (const_intf none) 14 4
        (World.init ())).2.sent.drop 0).head?
      = some { netfn := NetFn.IPMI_NETFN_APP, cmd := Cmd.IPMI_GET_CHANNEL_AUTH_CAP,
               data := rq_data.bytes [(14 &&& 0xF) ||| 0x80, 4], data_len := 2 } :=
  auth_cap_first_request demo_externals (const_intf none) 14 4 (World.init ())
    (by decide) (by decide)

theorem printed_append (fmt : String) (l1 l2 : List Event) :
    printed fmt (l1 ++ l2) = printed fmt l1 ++ printed fmt l2 := by
  induction l1 with
  | nil => rfl
  | cons e l1 ih =>
    cases e with
    | printf f args =>
      by_cases h : f = fmt
      · simp [printed, h, ih]
      · simp [printed, h, ih]
    | lprintf l f args => simp [printed, ih]

theorem printed_printf {σ : Type} (fmt f : String) (args : List Arg) (w : World σ) :
    printed fmt (printf f args w).out
      = printed fmt w.out ++ (if f = fmt then [args] else []) := by
  simp only [printf, printed_append, printed]

theorem user_access_report_sent {σ : Type} (E : Externals) (uid : Nat)
    (ua : get_user_access_rsp) (name : List Nat) (w : World σ) :
    (user_access_report E uid ua name w).sent = w.sent := by
  simp only [user_access_report, printf_sent]

theorem user_access_report_st {σ : Type} (E : Externals) (uid : Nat)
    (ua : get_user_access_rsp) (name : List Nat) (w : World σ) :
    (user_access_report E uid ua name w).st = w.st := by
  simp only [user_access_report, printf_st]

/-- The per-user lines contain neither the maximum nor the enabled count. -/
theorem user_access_report_printed {σ : Type} (E : Externals) (uid : Nat)
    (ua : get_user_access_rsp) (name : List Nat) (w : World σ) :
    printed "Maximum User IDs     : %d\n" (user_access_report E uid ua name w).out
        = printed "Maximum User IDs     : %d\n" w.out ∧
      printed "Enabled User IDs     : %d\n" (user_access_report E uid ua name w).out
        = printed "Enabled User IDs     : %d\n" w.out := by
  simp [user_access_report, printed_printf]

theorem send_eq_of_fst {σ : Type} (intf : ipmi_intf σ) (rq : ipmi_rq) (w : World σ)
    (r : Option ipmi_rs) (h : (intf.sendrecv w.st rq).1 = r) :
    send intf rq w = (r, (send intf rq w).2) := by
  simp only [send, h]

/-- One iteration of the loop of `ipmi_get_user_access` against a transport
that always succeeds. -/
theorem get_user_access_loop_step {σ : Type} (E : Externals) (intf : ipmi_intf σ)
    (hok : always_succeeds intf) (channel userid fuel curr_uid max_uid : Nat) (init : Bool)
    (w : World σ) :
    ∃ rs1 w4,
      (intf.sendrecv w.st (user_access_rq (channel &&& 0xf) (curr_uid &&& 0x3f))).1 = some rs1 ∧
      w4.sent = w.sent ++ user_pair channel curr_uid ∧
      printed "Maximum User IDs     : %d\n" w4.out
        = printed "Maximum User IDs     : %d\n" w.out ++
          (if init then [[Arg.num (get_user_access_rsp.decode rs1.data).max_user_ids]] else []) ∧
      printed "Enabled User IDs     : %d\n" w4.out
        = printed "Enabled User IDs     : %d\n" w.out ++
          (if init then [[Arg.num (get_user_access_rsp.decode rs1.data).enabled_user_ids]]
            else []) ∧
      ipmi_get_user_access_loop E intf channel userid (fuel + 1) curr_uid max_uid init w
        = if userid = 0 ∧ curr_uid + 1 ≤
              (if init then (get_user_access_rsp.decode rs1.data).max_user_ids else max_uid) then
            ipmi_get_user_access_loop E intf channel userid fuel (curr_uid + 1)
              (if init then (get_user_access_rsp.decode rs1.data).max_user_ids else max_uid)
              false w4
          else some (0, w4) := by
  obtain ⟨rs1, h1, hc1⟩ := hok w.st (user_access_rq (channel &&& 0xf) (curr_uid &&& 0x3f))
  obtain ⟨rs2, h2, hc2⟩ := hok (send intf (user_access_rq (channel &&& 0xf) (curr_uid &&& 0x3f)) w).2.st
    (user_name_rq (curr_uid &&& 0x3f))
  have e1 := send_eq_of_fst intf _ w _ h1
  have e2 := send_eq_of_fst intf _
    (send intf (user_access_rq (channel &&& 0xf) (curr_uid &&& 0x3f)) w).2 _ h2
  refine ⟨rs1, user_access_report E curr_uid (get_user_access_rsp.decode rs1.data) rs2.data
    (if init then
      printf "Enabled User IDs     : %d\n"
        [Arg.num (get_user_access_rsp.decode rs1.data).enabled_user_ids]
        (printf "Maximum User IDs     : %d\n"
          [Arg.num (get_user_access_rsp.decode rs1.data).max_user_ids]
          (send intf (user_name_rq (curr_uid &&& 0x3f))
            (send intf (user_access_rq (channel &&& 0xf) (curr_uid &&& 0x3f)) w).2).2)
    else (send intf (user_name_rq (curr_uid &&& 0x3f))
      (send intf (user_access_rq (channel &&& 0xf) (curr_uid &&& 0x3f)) w).2).2),
    h1, ?_, ?_, ?_, ?_⟩
  rotate_left 3
  · rw [ipmi_get_user_access_loop]
    simp only []
    rw [e1]
    simp only [hc1, gt_iff_lt, lt_self_iff_false, if_false]
    rw [e2]
    simp only [hc2, gt_iff_lt, lt_self_iff_false, if_false]
  · simp only [user_access_report_sent, user_pair]
    cases init <;> simp [send_sent]
  · rw [(user_access_report_printed E _ _ _ _).1]
    cases init <;> simp [printed_printf, send_out]
  · rw [(user_access_report_printed E _ _ _ _).2]
    cases init <;> simp [printed_printf, send_out]

/-- The iterations after the first one, for `userid = 0`: from `curr_uid` up to
`max_uid = curr_uid + k` the loop issues `k + 1` pairs and returns 0. -/
theorem get_user_access_loop_tail {σ : Type} (E : Externals) (intf : ipmi_intf σ)
    (hok : always_succeeds intf) (channel : Nat) :
    ∀ (k fuel curr_uid max_uid : Nat) (w : World σ),
      curr_uid + k = max_uid → k + 1 ≤ fuel →
      ∃ w', ipmi_get_user_access_loop E intf channel 0 fuel curr_uid max_uid false w
          = some (0, w') ∧
        w'.sent = w.sent ++ (List.range' curr_uid (k + 1)).flatMap (user_pair channel) ∧
        printed "Maximum User IDs     : %d\n" w'.out
          = printed "Maximum User IDs     : %d\n" w.out ∧
        printed "Enabled User IDs     : %d\n" w'.out
          = printed "Enabled User IDs     : %d\n" w.out := by
  intro k
  induction k with
  | zero =>
    intro fuel curr_uid max_uid w hk hfuel
    obtain ⟨f, rfl⟩ : ∃ f, fuel = f + 1 := ⟨fuel - 1, by omega⟩
    obtain ⟨rs1, w4, -, hsent, hmax, hen, hloop⟩ :=
      get_user_access_loop_step E intf hok channel 0 f curr_uid max_uid false w
    refine ⟨w4, ?_, ?_, ?_, ?_⟩
    · rw [hloop]
      have : ¬ (curr_uid + 1 ≤ max_uid) := by omega
      simp [this]
    · rw [hsent]; simp [List.range'_succ]
    · simpa using hmax
    · simpa using hen
  | succ k ih =>
    intro fuel curr_uid max_uid w hk hfuel
    obtain ⟨f, rfl⟩ : ∃ f, fuel = f + 1 := ⟨fuel - 1, by omega⟩
    obtain ⟨rs1, w4, -, hsent, hmax, hen, hloop⟩ :=
      get_user_access_loop_step E intf hok channel 0 f curr_uid max_uid false w
    obtain ⟨w', hl', hsent', hmax', hen'⟩ :=
      ih f (curr_uid + 1) max_uid w4 (by omega) (by omega)
    refine ⟨w', ?_, ?_, ?_, ?_⟩
    · rw [hloop]
      have : curr_uid + 1 ≤ max_uid := by omega
      simp only [this, and_self, if_true, Bool.false_eq_true, if_false]
      exact hl'
    · rw [hsent', hsent, List.range'_succ curr_uid (k + 1), List.flatMap_cons,
        List.append_assoc]
    · rw [hmax']; simpa using hmax
    · rw [hen']; simpa using hen

/-- C3 (as amended): `ipmi_get_user_access` called with `userid = 0` against a
transport that always succeeds, whose first Get User Access response reports
`max_user_ids = n`, returns 0 (given fuel for `max n 1` iterations) after
issuing exactly `max n 1` (Get User Access, Get User Name) pairs, for the ids
`1 .. max n 1` in increasing order, each access request carrying
`[channel & 0xF, id & 0x3F]` and each name request `[id & 0x3F]`; the maximum
and the enabled user-id counts are printed exactly once, with the values of
the response for id 1.  For `n ≥ 1` these are `n` pairs; for `n = 0` the
`do ... while` body still runs once, for id 1. -/
theorem get_user_access_enumerates_all {σ : Type} (E : Externals) (intf : ipmi_intf σ)
    (hok : always_succeeds intf) (channel fuel : Nat) (w : World σ) (rs1 : ipmi_rs)
    (hfirst : (intf.sendrecv (intf.session_set_privlvl w.st E.IPMI_SESSION_PRIV_ADMIN)
      (user_access_rq (channel &&& 0xf) 1)).1 = some rs1)
    (hfuel : max (get_user_access_rsp.decode rs1.data).max_user_ids 1 ≤ fuel) :
    ∃ w', ipmi_get_user_access E intf fuel channel 0 w = some (0, w') ∧
      w'.sent = w.sent ++
        (List.range' 1 (max (get_user_access_rsp.decode rs1.data).max_user_ids 1)).flatMap
          (user_pair channel) ∧
      printed "Maximum User IDs     : %d\n" w'.out
        = printed "Maximum User IDs     : %d\n" w.out ++
          [[Arg.num (get_user_access_rsp.decode rs1.data).max_user_ids]] ∧
      printed "Enabled User IDs     : %d\n" w'.out
        = printed "Enabled User IDs     : %d\n" w.out ++
          [[Arg.num (get_user_access_rsp.decode rs1.data).enabled_user_ids]] := by
  obtain ⟨f, rfl⟩ : ∃ f, fuel = f + 1 := ⟨fuel - 1, by omega⟩
  obtain ⟨rs, w4, hrs, hsent, hmax, hen, hloop⟩ :=
    get_user_access_loop_step E intf hok channel 0 f 1 0 true
      (ipmi_intf_session_set_privlvl intf E.IPMI_SESSION_PRIV_ADMIN w)
  have h63 : (1 : Nat) &&& 0x3f = 1 := by decide
  rw [h63] at hrs
  have hrs' : rs = rs1 := by
    have := hrs.symm.trans hfirst
    exact Option.some.inj this
  subst hrs'
  simp only [if_true] at hmax hen hloop
  simp only [set_privlvl_sent, set_privlvl_out] at hsent hmax hen
  have hdef : ipmi_get_user_access E intf (f + 1) channel 0 w
      = ipmi_get_user_access_loop E intf channel 0 (f + 1) 1 0 true
          (ipmi_intf_session_set_privlvl intf E.IPMI_SESSION_PRIV_ADMIN w) := by
    simp [ipmi_get_user_access]
  rw [hdef, hloop]
  by_cases hn : 2 ≤ (get_user_access_rsp.decode rs.data).max_user_ids
  · obtain ⟨w', hl', hsent', hmax', hen'⟩ :=
      get_user_access_loop_tail E intf hok channel
        ((get_user_access_rsp.decode rs.data).max_user_ids - 2) f 2
        (get_user_access_rsp.decode rs.data).max_user_ids w4 (by omega)
        (by rw [max_eq_left (by omega)] at hfuel; omega)
    refine ⟨w', ?_, ?_, ?_, ?_⟩
    · simp only [hn, true_and, if_true]
      exact hl'
    · rw [hsent', hsent, max_eq_left (by omega)]
      obtain ⟨m, hm⟩ : ∃ m, (get_user_access_rsp.decode rs.data).max_user_ids = m + 2 :=
        ⟨_, (Nat.sub_add_cancel hn).symm⟩
      rw [hm, List.range'_succ 1 (m + 1), List.flatMap_cons, List.append_assoc]
      simp
    · rw [hmax', hmax]
    · rw [hen', hen]
  · refine ⟨w4, ?_, ?_, hmax, hen⟩
    · have : ¬ (1 + 1 ≤ (get_user_access_rsp.decode rs.data).max_user_ids) := by omega
      simp only [this, and_false, if_false]
    · rw [hsent, max_eq_right (by omega)]
      simp [List.range'_succ]

/-- C3, closed instance: with `max_user_ids = 5` the five pairs for ids 1..5 are
issued and both counts are printed once. -/
theorem get_user_access_enumerates_all_witness :
    ∃ w', ipmi_get_user_access demo_externals (const_intf (some demo_user_rs)) 5 1 0
          (World.init ()) = some (0, w') ∧
      w'.sent = (World.init ()).sent ++
        (List.range' 1 (max (get_user_access_rsp.decode demo_user_rs.data).max_user_ids 1)).flatMap
          (user_pair 1) ∧
      printed "Maximum User IDs     : %d\n" w'.out
        = printed "Maximum User IDs     : %d\n" (World.init ()).out ++
          [[Arg.num (get_user_access_rsp.decode demo_user_rs.data).max_user_ids]] ∧
      printed "Enabled User IDs     : %d\n" w'.out
        = printed "Enabled User IDs     : %d\n" (World.init ()).out ++
          [[Arg.num (get_user_access_rsp.decode demo_user_rs.data).enabled_user_ids]] :=
  get_user_access_enumerates_all demo_externals (const_intf (some demo_user_rs))
    (fun _ _ => ⟨demo_user_rs, rfl, rfl⟩) 1 5 (World.init ()) demo_user_rs rfl (by decide)

/-- C3 as stated fails for `n = 0`: against a transport that always succeeds
and reports `max_user_ids = 0`, one pair (for id 1) is issued, not zero. -/
theorem get_user_access_max_zero_counterexample :
    always_succeeds (const_intf (some zero_user_rs)) ∧
      (get_user_access_rsp.decode zero_user_rs.data).max_user_ids = 0 ∧
      (ipmi_get_user_access demo_externals (const_intf (some zero_user_rs)) 10 1 0
          (World.init ())).map (fun r => (r.1, r.2.sent))
        = some (0, [user_access_rq 1 1, user_name_rq 1]) ∧
      [user_access_rq 1 1, user_name_rq 1] ≠ (List.range' 1 0).flatMap (user_pair 1) :=
  ⟨fun _ _ => ⟨zero_user_rs, rfl, rfl⟩, by decide, by decide, by decide⟩

/-- C4: `ipmi_get_user_access` called with an explicit nonzero user id against
a transport that always succeeds issues exactly one (Get User Access,
Get User Name) pair, carrying `[channel & 0xF, userid & 0x3F]` and
`[userid & 0x3F]`, and returns 0, whatever `max_user_ids` the response
reports. -/
theorem get_user_access_explicit_id {σ : Type} (E : Externals) (intf : ipmi_intf σ)
    (hok : always_succeeds intf) (channel userid fuel : Nat) (w : World σ)
    (hu : userid ≠ 0) (hfuel : 1 ≤ fuel) :
    ∃ w', ipmi_get_user_access E intf fuel channel userid w = some (0, w') ∧
      w'.sent = w.sent ++ [user_access_rq (channel &&& 0xf) (userid &&& 0x3f),
        user_name_rq (userid &&& 0x3f)] := by
  obtain ⟨f, rfl⟩ : ∃ f, fuel = f + 1 := ⟨fuel - 1, by omega⟩
  obtain ⟨rs, w4, -, hsent, -, -, hloop⟩ :=
    get_user_access_loop_step E intf hok channel userid f userid 0 true
      (ipmi_intf_session_set_privlvl intf E.IPMI_SESSION_PRIV_ADMIN w)
  refine ⟨w4, ?_, ?_⟩
  · have hdef : ipmi_get_user_access E intf (f + 1) channel userid w
        = ipmi_get_user_access_loop E intf channel userid (f + 1) userid 0 true
            (ipmi_intf_session_set_privlvl intf E.IPMI_SESSION_PRIV_ADMIN w) := by
      simp [ipmi_get_user_access, hu]
    rw [hdef, hloop]
    simp [hu]
  · rw [hsent]; rfl

/-- C4, closed instance: user id 3 on channel 1, the device reporting
`max_user_ids = 5`: one pair, for id 3. -/
theorem get_user_access_explicit_id_witness :
    ∃ w', ipmi_get_user_access demo_externals (const_intf (some demo_user_rs)) 1 1 3
          (World.init ()) = some (0, w') ∧
      w'.sent = (World.init ()).sent ++ [user_access_rq (1 &&& 0xf) (3 &&& 0x3f),
        user_name_rq (3 &&& 0x3f)] :=
  get_user_access_explicit_id demo_externals (const_intf (some demo_user_rs))
    (fun _ _ => ⟨demo_user_rs, rfl, rfl⟩) 1 3 1 (World.init ()) (by decide) (by decide)

/-! ### `strncmp` against a literal key -/

/-- Comparing the first `key.length` bytes with a key that has no NUL byte
gives 0 exactly when the string begins with the key. -/
theorem strncmp_eq_zero_iff (key : cstring) (hk : ∀ c ∈ key, c ≠ 0) (s : cstring) :
    strncmp s key key.length = 0 ↔ s.take key.length = key := by
  induction key generalizing s with
  | nil => simp [strncmp]
  | cons k key ih =>
    have hk0 : k ≠ 0 := hk k (List.mem_cons_self _ _)
    have hk' : ∀ c ∈ key, c ≠ 0 := fun c hc => hk c (List.mem_cons_of_mem _ hc)
    cases s with
    | nil =>
      simp only [List.length_cons, strncmp, List.headD_nil, List.headD_cons, List.take_nil]
      have : (0 : Nat) ≠ k := fun h => hk0 h.symm
      simp only [ne_eq, this, not_false_eq_true, if_true]
      constructor
      · intro h
        have : (k : Int) = 0 := by simpa using h
        exact absurd (by exact_mod_cast this) hk0
      · intro h; cases h
    | cons c s =>
      simp only [List.length_cons, strncmp, List.headD_cons, List.tail_cons, List.take_succ_cons]
      by_cases hck : c = k
      · subst hck
        simp only [ne_eq, not_true_eq_false, if_false, hk0]
        rw [ih hk' s]
        simp
      · simp only [ne_eq, hck, not_false_eq_true, if_true]
        constructor
        · intro h
          have : (c : Int) = (k : Int) := by omega
          exact absurd (by exact_mod_cast this) hck
        · intro h
          exact absurd (List.cons.inj h).1 hck

theorem strncmp_callin (s : cstring) :
    strncmp s (cstr "callin=") 7 = 0 ↔ s.take 7 = cstr "callin=" :=
  strncmp_eq_zero_iff (cstr "callin=") (by decide) s

theorem strncmp_link (s : cstring) :
    strncmp s (cstr "link=") 5 = 0 ↔ s.take 5 = cstr "link=" :=
  strncmp_eq_zero_iff (cstr "link=") (by decide) s

theorem strncmp_ipmi (s : cstring) :
    strncmp s (cstr "ipmi=") 5 = 0 ↔ s.take 5 = cstr "ipmi=" :=
  strncmp_eq_zero_iff (cstr "ipmi=") (by decide) s

theorem strncmp_privilege (s : cstring) :
    strncmp s (cstr "privilege=") 10 = 0 ↔ s.take 10 = cstr "privilege=" :=
  strncmp_eq_zero_iff (cstr "privilege=") (by decide) s

theorem strncmp_help (s : cstring) :
    strncmp s (cstr "help") 4 = 0 ↔ s.take 4 = cstr "help" :=
  strncmp_eq_zero_iff (cstr "help") (by decide) s

theorem strncmp_off (s : cstring) :
    strncmp s (cstr "off") 3 = 0 ↔ s.take 3 = cstr "off" :=
  strncmp_eq_zero_iff (cstr "off") (by decide) s

theorem to_bits_natCast (w n : Nat) : to_bits w (n : Int) = n % 2 ^ w := by
  unfold to_bits
  have : ((n : Int) % (2 : Int) ^ w) = ((n % 2 ^ w : Nat) : Int) := by
    push_cast; rfl
  rw [this, Int.toNat_natCast]

/-! ### `ipmi_set_user_access` -/

/-- The option loop stops with an error as soon as the argument list holds a
token with no known key. -/
theorem set_user_access_opts_unknown (E : Externals) (tokens : List cstring)
    (hbad : ∃ t ∈ tokens, ¬ has_known_key t) (sa : set_user_access_data) :
    ∃ arg, set_user_access_opts E tokens sa = Except.error arg := by
  induction tokens generalizing sa with
  | nil => obtain ⟨t, ht, -⟩ := hbad; cases ht
  | cons a rest ih =>
    by_cases ha : has_known_key a
    · have hrest : ∃ t ∈ rest, ¬ has_known_key t := by
        obtain ⟨t, ht, hk⟩ := hbad
        rcases List.mem_cons.mp ht with rfl | h
        · exact absurd ha hk
        · exact ⟨t, h, hk⟩
      rw [set_user_access_opts]
      split_ifs
      · exact ih hrest _
      · exact ih hrest _
      · exact ih hrest _
      · exact ih hrest _
      · exact ⟨a, rfl⟩
    · simp only [has_known_key, not_or, ← strncmp_callin, ← strncmp_link, ← strncmp_ipmi,
        ← strncmp_privilege] at ha
      rw [set_user_access_opts]
      simp only [ha.1, ha.2.1, ha.2.2.1, ha.2.2.2, if_false]
      exact ⟨a, rfl⟩

/-- With at least three arguments, the first of which is not a help request,
`ipmi_set_user_access` is its part after the usage test. -/
theorem set_user_access_past_usage {σ : Type} (E : Externals) (intf : ipmi_intf σ)
    (ch uid t : cstring) (tokens : List cstring) (w : World σ)
    (hch : ch.take 4 ≠ cstr "help") :
    ipmi_set_user_access E intf (ch :: uid :: t :: tokens) w
      = match send intf (user_access_rq (to_uchar (E.strtol ch) &&& 0xf)
            (to_uchar (E.strtol uid) &&& 0x3f))
          (ipmi_intf_session_set_privlvl intf E.IPMI_SESSION_PRIV_ADMIN w) with
        | (none, w1) =>
          (-1, lprintf LogLevel.LOG_ERR "Unable to Get User Access (channel %d id %d)"
            [Arg.num (to_uchar (E.strtol ch) &&& 0xf : Nat),
              Arg.num (to_uchar (E.strtol uid) &&& 0x3f : Nat)] w1)
        | (some rsp, w1) =>
          if rsp.ccode > 0 then
            (-1, lprintf LogLevel.LOG_ERR "Get User Access (channel %d id %d) failed: %s"
              [Arg.num (to_uchar (E.strtol ch) &&& 0xf : Nat),
                Arg.num (to_uchar (E.strtol uid) &&& 0x3f : Nat),
                Arg.str (E.val2str rsp.ccode E.completion_code_vals)] w1)
          else
            match set_user_access_opts E (t :: tokens)
                (set_access_init (to_uchar (E.strtol ch)) (to_uchar (E.strtol uid))
                  (get_user_access_rsp.decode rsp.data)) with
            | Except.error arg => (-1, printf "Invalid option: %s\n" [Arg.buf arg] w1)
            | Except.ok set_access =>
              match send intf (set_user_access_rq set_access) w1 with
              | (none, w2) =>
                (-1, lprintf LogLevel.LOG_ERR "Unable to Set User Access (channel %d id %d)"
                  [Arg.num set_access.channel, Arg.num set_access.user_id] w2)
              | (some rsp, w2) =>
                if rsp.ccode > 0 then
                  (-1, lprintf LogLevel.LOG_ERR
                    "Set User Access (channel %d id %d) failed: %s"
                    [Arg.num set_access.channel, Arg.num set_access.user_id,
                      Arg.str (E.val2str rsp.ccode E.completion_code_vals)] w2)
                else (0, w2) := by
  have h4 : ¬ strncmp ch (cstr "help") 4 = 0 := fun h => hch ((strncmp_help ch).mp h)
  unfold ipmi_set_user_access
  simp [h4]

theorem count_cmd_append (c : Cmd) (l1 l2 : List ipmi_rq) :
    count_cmd c (l1 ++ l2) = count_cmd c l1 + count_cmd c l2 := by
  simp [count_cmd]

/-- C6: for every argument list (channel, user id, then tokens) in which some
token does not begin with one of the keys `callin=`, `link=`, `ipmi=`,
`privilege=` (the first argument being a channel, not a help request),
`ipmi_set_user_access` returns -1 and the only request it issues is the
baseline Get User Access read: no Set User Access request is sent, whatever
the other tokens are and whatever the transport answers. -/
theorem set_user_access_unknown_key {σ : Type} (E : Externals) (intf : ipmi_intf σ)
    (ch uid : cstring) (tokens : List cstring) (w : World σ)
    (hch : ch.take 4 ≠ cstr "help") (hbad : ∃ t ∈ tokens, ¬ has_known_key t) :
    (ipmi_set_user_access E intf (ch :: uid :: tokens) w).1 = -1 ∧
      (ipmi_set_user_access E intf (ch :: uid :: tokens) w).2.sent
        = w.sent ++ [user_access_rq (to_uchar (E.strtol ch) &&& 0xf)
            (to_uchar (E.strtol uid) &&& 0x3f)] ∧
      count_cmd Cmd.IPMI_SET_USER_ACCESS (ipmi_set_user_access E intf (ch :: uid :: tokens) w).2.sent
        = count_cmd Cmd.IPMI_SET_USER_ACCESS w.sent := by
  obtain ⟨t, rest, rfl⟩ : ∃ t rest, tokens = t :: rest := by
    cases tokens with
    | nil => obtain ⟨t, ht, -⟩ := hbad; cases ht
    | cons t rest => exact ⟨t, rest, rfl⟩
  have key : (ipmi_set_user_access E intf (ch :: uid :: t :: rest) w).1 = -1 ∧
      (ipmi_set_user_access E intf (ch :: uid :: t :: rest) w).2.sent
        = w.sent ++ [user_access_rq (to_uchar (E.strtol ch) &&& 0xf)
            (to_uchar (E.strtol uid) &&& 0x3f)] := by
    rw [set_user_access_past_usage E intf ch uid t rest w hch]
    generalize hr : send intf (user_access_rq (to_uchar (E.strtol ch) &&& 0xf)
      (to_uchar (E.strtol uid) &&& 0x3f))
      (ipmi_intf_session_set_privlvl intf E.IPMI_SESSION_PRIV_ADMIN w) = r
    have hs := send_sent intf (user_access_rq (to_uchar (E.strtol ch) &&& 0xf)
      (to_uchar (E.strtol uid) &&& 0x3f))
      (ipmi_intf_session_set_privlvl intf E.IPMI_SESSION_PRIV_ADMIN w)
    rw [hr, set_privlvl_sent] at hs
    obtain ⟨rsp, w1⟩ := r
    simp only at hs
    cases rsp with
    | none => exact ⟨rfl, by simpa using hs⟩
    | some rs =>
      by_cases hc : rs.ccode > 0
      · constructor
        · simp [hc]
        · simp [hc, hs]
      · obtain ⟨arg, harg⟩ := set_user_access_opts_unknown E (t :: rest) hbad
          (set_access_init (to_uchar (E.strtol ch)) (to_uchar (E.strtol uid))
            (get_user_access_rsp.decode rs.data))
        constructor
        · simp [hc, harg]
        · simp [hc, harg, hs]
  refine ⟨key.1, key.2, ?_⟩
  rw [key.2, count_cmd_append]
  simp [count_cmd, user_access_rq]

/-- C6, closed instance: `setaccess 1 2 link=on bogus=1` against a transport
that always succeeds. -/
theorem set_user_access_unknown_key_witness :
    (ipmi_set_user_access demo_externals (const_intf (some demo_user_rs))
        (cstr "1" :: cstr "2" :: [cstr "link=on", cstr "bogus=1"]) (World.init ())).1 = -1 ∧
      (ipmi_set_user_access demo_externals (const_intf (some demo_user_rs))
        (cstr "1" :: cstr "2" :: [cstr "link=on", cstr "bogus=1"]) (World.init ())).2.sent
        = (World.init ()).sent ++ [user_access_rq (to_uchar (demo_externals.strtol (cstr "1")) &&& 0xf)
            (to_uchar (demo_externals.strtol (cstr "2")) &&& 0x3f)] ∧
      count_cmd Cmd.IPMI_SET_USER_ACCESS (ipmi_set_user_access demo_externals
        (const_intf (some demo_user_rs))
        (cstr "1" :: cstr "2" :: [cstr "link=on", cstr "bogus=1"]) (World.init ())).2.sent
        = count_cmd Cmd.IPMI_SET_USER_ACCESS (World.init ()).sent :=
  set_user_access_unknown_key demo_externals (const_intf (some demo_user_rs))
    (cstr "1") (cstr "2") [cstr "link=on", cstr "bogus=1"] (World.init ())
    (by decide) ⟨cstr "bogus=1", by decide, by decide⟩

/-- C5 as stated fails: `setaccess 1 2` (channel and user id only) sends no
request at all, so no Set User Access request, and returns 0. -/
theorem set_user_access_no_tokens_counterexample :
    (ipmi_set_user_access demo_externals (const_intf (some demo_user_rs))
        [cstr "1", cstr "2"] (World.init ())).2.sent = [] ∧
      count_cmd Cmd.IPMI_SET_USER_ACCESS
        (ipmi_set_user_access demo_externals (const_intf (some demo_user_rs))
          [cstr "1", cstr "2"] (World.init ())).2.sent = 0 ∧
      (ipmi_set_user_access demo_externals (const_intf (some demo_user_rs))
        [cstr "1", cstr "2"] (World.init ())).1 = 0 := by
  refine ⟨?_, ?_, ?_⟩ <;> decide

/-- C5 (as amended): for every channel and user id, `ipmi_set_user_access`
invoked with only the channel and the user id (no key=value token) fails the
`argc < 3` test: it raises the session privilege, prints the usage text,
returns 0 and hands no request to the transport (neither the baseline read
nor a Set User Access request). -/
theorem set_user_access_no_tokens {σ : Type} (E : Externals) (intf : ipmi_intf σ)
    (ch uid : cstring) (w : World σ) :
    ipmi_set_user_access E intf [ch, uid] w
        = (0, printf_channel_usage
            (ipmi_intf_session_set_privlvl intf E.IPMI_SESSION_PRIV_ADMIN w)) ∧
      (ipmi_set_user_access E intf [ch, uid] w).2.sent = w.sent := by
  have h : ipmi_set_user_access E intf [ch, uid] w
      = (0, printf_channel_usage
          (ipmi_intf_session_set_privlvl intf E.IPMI_SESSION_PRIV_ADMIN w)) := by
    unfold ipmi_set_user_access
    simp
  refine ⟨h, ?_⟩
  rw [h]
  simp only [printf_channel_usage_sent, set_privlvl_sent]

/-- What the option loop leaves alone: the fields no token can name, and each
of the four option fields when no token begins with its key. -/
theorem set_user_access_opts_frame (E : Externals) (tokens : List cstring) :
    ∀ (sa sa' : set_user_access_data), set_user_access_opts E tokens sa = Except.ok sa' →
      sa'.change_bits = sa.change_bits ∧ sa'.channel = sa.channel ∧
      sa'.user_id = sa.user_id ∧ sa'.session_limit = sa.session_limit ∧
      ((∀ t ∈ tokens, t.take 7 ≠ cstr "callin=") → sa'.callin_callback = sa.callin_callback) ∧
      ((∀ t ∈ tokens, t.take 5 ≠ cstr "link=") → sa'.link_auth = sa.link_auth) ∧
      ((∀ t ∈ tokens, t.take 5 ≠ cstr "ipmi=") → sa'.ipmi_messaging = sa.ipmi_messaging) ∧
      ((∀ t ∈ tokens, t.take 10 ≠ cstr "privilege=") →
        sa'.privilege_limit = sa.privilege_limit) := by
  induction tokens with
  | nil =>
    intro sa sa' h
    simp only [set_user_access_opts, Except.ok.injEq] at h
    subst h
    simp
  | cons a rest ih =>
    intro sa sa' h
    rw [set_user_access_opts] at h
    have htail : ∀ {n : Nat} {key : cstring}, (∀ t ∈ a :: rest, t.take n ≠ key) →
        ∀ t ∈ rest, t.take n ≠ key := fun hall t ht => hall t (List.mem_cons_of_mem _ ht)
    have hhead : ∀ {n : Nat} {key : cstring}, (∀ t ∈ a :: rest, t.take n ≠ key) →
        a.take n ≠ key := fun hall => hall a (List.mem_cons_self _ _)
    split_ifs at h with h1 h2 h3 h4
    · obtain ⟨e1, e2, e3, e4, f1, f2, f3, f4⟩ := ih _ _ h
      refine ⟨e1, e2, e3, e4, fun hall => ?_, fun hall => f2 (htail hall),
        fun hall => f3 (htail hall), fun hall => f4 (htail hall)⟩
      exact absurd ((strncmp_callin a).mp h1) (hhead hall)
    · obtain ⟨e1, e2, e3, e4, f1, f2, f3, f4⟩ := ih _ _ h
      refine ⟨e1, e2, e3, e4, fun hall => f1 (htail hall), fun hall => ?_,
        fun hall => f3 (htail hall), fun hall => f4 (htail hall)⟩
      exact absurd ((strncmp_link a).mp h2) (hhead hall)
    · obtain ⟨e1, e2, e3, e4, f1, f2, f3, f4⟩ := ih _ _ h
      refine ⟨e1, e2, e3, e4, fun hall => f1 (htail hall), fun hall => f2 (htail hall),
        fun hall => ?_, fun hall => f4 (htail hall)⟩
      exact absurd ((strncmp_ipmi a).mp h3) (hhead hall)
    · obtain ⟨e1, e2, e3, e4, f1, f2, f3, f4⟩ := ih _ _ h
      refine ⟨e1, e2, e3, e4, fun hall => f1 (htail hall), fun hall => f2 (htail hall),
        fun hall => f3 (htail hall), fun hall => ?_⟩
      exact absurd ((strncmp_privilege a).mp h4) (hhead hall)

/-- The fields of `set_access` before the option loop. -/
theorem set_access_init_fields (channel userid : Nat) (d : List Nat) :
    (set_access_init channel userid (get_user_access_rsp.decode d)).change_bits = 1 ∧
      (set_access_init channel userid (get_user_access_rsp.decode d)).session_limit = 0 ∧
      (set_access_init channel userid (get_user_access_rsp.decode d)).channel = channel % 16 ∧
      (set_access_init channel userid (get_user_access_rsp.decode d)).user_id = userid % 64 ∧
      (set_access_init channel userid (get_user_access_rsp.decode d)).callin_callback
        = (get_user_access_rsp.decode d).callin_callback ∧
      (set_access_init channel userid (get_user_access_rsp.decode d)).link_auth
        = (get_user_access_rsp.decode d).link_auth ∧
      (set_access_init channel userid (get_user_access_rsp.decode d)).ipmi_messaging
        = (get_user_access_rsp.decode d).ipmi_messaging ∧
      (set_access_init channel userid (get_user_access_rsp.decode d)).privilege_limit
        = (get_user_access_rsp.decode d).privilege_limit := by
  simp only [set_access_init, to_bits_natCast, get_user_access_rsp.decode]
  refine ⟨by decide, by decide, by norm_num, by norm_num, ?_, ?_, ?_, ?_⟩ <;>
    simp [Nat.mod_mod]

/-- C9: every invocation of `ipmi_set_user_access` with at least one token that
returns 0 (the first argument being a channel, not a help request) read the
baseline successfully and then sent exactly one Set User Access request, with
`data_len` 4, `change_bits` set, `session_limit` 0, channel and user id those
of the positional arguments (stored in the 4-bit and 6-bit fields), and each
of `callin_callback`, `link_auth`, `ipmi_messaging`, `privilege_limit` equal
to the baseline record's value when no token begins with its key. -/
theorem set_user_access_success_request {σ : Type} (E : Externals) (intf : ipmi_intf σ)
    (ch uid t : cstring) (tokens : List cstring) (w : World σ)
    (hch : ch.take 4 ≠ cstr "help")
    (hret : (ipmi_set_user_access E intf (ch :: uid :: t :: tokens) w).1 = 0) :
    ∃ rs sa,
      (intf.sendrecv (intf.session_set_privlvl w.st E.IPMI_SESSION_PRIV_ADMIN)
        (user_access_rq (to_uchar (E.strtol ch) &&& 0xf)
          (to_uchar (E.strtol uid) &&& 0x3f))).1 = some rs ∧
      rs.ccode = 0 ∧
      (ipmi_set_user_access E intf (ch :: uid :: t :: tokens) w).2.sent
        = w.sent ++ [user_access_rq (to_uchar (E.strtol ch) &&& 0xf)
            (to_uchar (E.strtol uid) &&& 0x3f),
          { netfn := NetFn.IPMI_NETFN_APP, cmd := Cmd.IPMI_SET_USER_ACCESS,
            data := rq_data.set_access sa, data_len := 4 }] ∧
      sa.change_bits = 1 ∧ sa.session_limit = 0 ∧
      sa.channel = to_uchar (E.strtol ch) % 16 ∧
      sa.user_id = to_uchar (E.strtol uid) % 64 ∧
      ((∀ t' ∈ t :: tokens, t'.take 7 ≠ cstr "callin=") →
        sa.callin_callback = (get_user_access_rsp.decode rs.data).callin_callback) ∧
      ((∀ t' ∈ t :: tokens, t'.take 5 ≠ cstr "link=") →
        sa.link_auth = (get_user_access_rsp.decode rs.data).link_auth) ∧
      ((∀ t' ∈ t :: tokens, t'.take 5 ≠ cstr "ipmi=") →
        sa.ipmi_messaging = (get_user_access_rsp.decode rs.data).ipmi_messaging) ∧
      ((∀ t' ∈ t :: tokens, t'.take 10 ≠ cstr "privilege=") →
        sa.privilege_limit = (get_user_access_rsp.decode rs.data).privilege_limit) := by
  rw [set_user_access_past_usage E intf ch uid t tokens w hch] at hret ⊢
  generalize hr : send intf (user_access_rq (to_uchar (E.strtol ch) &&& 0xf)
    (to_uchar (E.strtol uid) &&& 0x3f))
    (ipmi_intf_session_set_privlvl intf E.IPMI_SESSION_PRIV_ADMIN w) = r at hret ⊢
  have hs := send_sent intf (user_access_rq (to_uchar (E.strtol ch) &&& 0xf)
    (to_uchar (E.strtol uid) &&& 0x3f))
    (ipmi_intf_session_set_privlvl intf E.IPMI_SESSION_PRIV_ADMIN w)
  have h1 : (send intf (user_access_rq (to_uchar (E.strtol ch) &&& 0xf)
      (to_uchar (E.strtol uid) &&& 0x3f))
      (ipmi_intf_session_set_privlvl intf E.IPMI_SESSION_PRIV_ADMIN w)).1
      = (intf.sendrecv (intf.session_set_privlvl w.st E.IPMI_SESSION_PRIV_ADMIN)
        (user_access_rq (to_uchar (E.strtol ch) &&& 0xf)
          (to_uchar (E.strtol uid) &&& 0x3f))).1 := rfl
  rw [hr] at hs h1
  rw [set_privlvl_sent] at hs
  obtain ⟨rsp, w1⟩ := r
  simp only at hs h1
  cases rsp with
  | none => simp at hret
  | some rs =>
    by_cases hc : rs.ccode > 0
    · simp [hc] at hret
    · simp only [hc, if_false] at hret ⊢
      generalize ho : set_user_access_opts E (t :: tokens)
        (set_access_init (to_uchar (E.strtol ch)) (to_uchar (E.strtol uid))
          (get_user_access_rsp.decode rs.data)) = o at hret ⊢
      cases o with
      | error arg => simp at hret
      | ok sa =>
        simp only at hret ⊢
        generalize hr2 : send intf (set_user_access_rq sa) w1 = r2 at hret ⊢
        have hs2 := send_sent intf (set_user_access_rq sa) w1
        rw [hr2] at hs2
        obtain ⟨rsp2, w2⟩ := r2
        simp only at hs2
        obtain ⟨e1, e2, e3, e4, f1, f2, f3, f4⟩ := set_user_access_opts_frame E _ _ _ ho
        obtain ⟨i1, i2, i3, i4, i5, i6, i7, i8⟩ :=
          set_access_init_fields (to_uchar (E.strtol ch)) (to_uchar (E.strtol uid)) rs.data
        have hsent : w2.sent = w.sent ++ [user_access_rq (to_uchar (E.strtol ch) &&& 0xf)
            (to_uchar (E.strtol uid) &&& 0x3f),
            { netfn := NetFn.IPMI_NETFN_APP, cmd := Cmd.IPMI_SET_USER_ACCESS,
              data := rq_data.set_access sa, data_len := 4 }] := by
          rw [hs2, hs, List.append_assoc]; rfl
        refine ⟨rs, sa, h1.symm, by omega, ?_, e1.trans i1, e4.trans i2, e2.trans i3,
          e3.trans i4, fun h => (f1 h).trans i5, fun h => (f2 h).trans i6,
          fun h => (f3 h).trans i7, fun h => (f4 h).trans i8⟩
        cases rsp2 with
        | none => simp at hret
        | some rs2 =>
          by_cases hc2 : rs2.ccode > 0
          · simp [hc2] at hret
          · simp only [hc2, if_false]
            exact hsent

/-- C9, closed instance: `setaccess 1 2 privilege=3` against a transport that
always succeeds returns 0, so the theorem applies to it. -/
theorem set_user_access_success_request_witness :
    ∃ rs sa,
      ((const_intf (some demo_user_rs)).sendrecv
        ((const_intf (some demo_user_rs)).session_set_privlvl (World.init ()).st
          demo_externals.IPMI_SESSION_PRIV_ADMIN)
        (user_access_rq (to_uchar (demo_externals.strtol (cstr "1")) &&& 0xf)
          (to_uchar (demo_externals.strtol (cstr "2")) &&& 0x3f))).1 = some rs ∧
      rs.ccode = 0 ∧
      (ipmi_set_user_access demo_externals (const_intf (some demo_user_rs))
          (cstr "1" :: cstr "2" :: cstr "privilege=3" :: []) (World.init ())).2.sent
        = (World.init ()).sent ++
          [user_access_rq (to_uchar (demo_externals.strtol (cstr "1")) &&& 0xf)
            (to_uchar (demo_externals.strtol (cstr "2")) &&& 0x3f),
          { netfn := NetFn.IPMI_NETFN_APP, cmd := Cmd.IPMI_SET_USER_ACCESS,
            data := rq_data.set_access sa, data_len := 4 }] ∧
      sa.change_bits = 1 ∧ sa.session_limit = 0 ∧
      sa.channel = to_uchar (demo_externals.strtol (cstr "1")) % 16 ∧
      sa.user_id = to_uchar (demo_externals.strtol (cstr "2")) % 64 ∧
      ((∀ t' ∈ cstr "privilege=3" :: [], t'.take 7 ≠ cstr "callin=") →
        sa.callin_callback = (get_user_access_rsp.decode rs.data).callin_callback) ∧
      ((∀ t' ∈ cstr "privilege=3" :: [], t'.take 5 ≠ cstr "link=") →
        sa.link_auth = (get_user_access_rsp.decode rs.data).link_auth) ∧
      ((∀ t' ∈ cstr "privilege=3" :: [], t'.take 5 ≠ cstr "ipmi=") →
        sa.ipmi_messaging = (get_user_access_rsp.decode rs.data).ipmi_messaging) ∧
      ((∀ t' ∈ cstr "privilege=3" :: [], t'.take 10 ≠ cstr "privilege=") →
        sa.privilege_limit = (get_user_access_rsp.decode rs.data).privilege_limit) :=
  set_user_access_success_request demo_externals (const_intf (some demo_user_rs))
    (cstr "1") (cstr "2") (cstr "privilege=3") [] (World.init ()) (by decide) (by decide)

/-- C7 as stated fails: `setaccess 1 2 callin=off` on a baseline whose
`callin_callback` is 0 sends `callin_callback = 1` (set, not cleared), and
`setaccess 1 2 callin=on` on a baseline whose `callin_callback` is 1 sends
`callin_callback = 0` (cleared, not set). -/
theorem set_user_access_callin_counterexample :
    (get_user_access_rsp.decode demo_user_rs.data).callin_callback = 0 ∧
      (ipmi_set_user_access demo_externals (const_intf (some demo_user_rs))
          [cstr "1", cstr "2", cstr "callin=off"] (World.init ())).2.sent
        = [user_access_rq 1 2,
          set_user_access_rq
            { change_bits := 1, callin_callback := 1, link_auth := 1, ipmi_messaging := 1,
              channel := 1, user_id := 2, privilege_limit := 4, session_limit := 0 }] ∧
      (get_user_access_rsp.decode callin_user_rs.data).callin_callback = 1 ∧
      (ipmi_set_user_access demo_externals (const_intf (some callin_user_rs))
          [cstr "1", cstr "2", cstr "callin=on"] (World.init ())).2.sent
        = [user_access_rq 1 2,
          set_user_access_rq
            { change_bits := 1, callin_callback := 0, link_auth := 1, ipmi_messaging := 1,
              channel := 1, user_id := 2, privilege_limit := 4, session_limit := 0 }] := by
  refine ⟨?_, ?_, ?_, ?_⟩ <;> decide

/-- The assignment `set_access.callin_callback = !(strncmp(v, "off", 3))`. -/
theorem callin_value (v : cstring) :
    to_bits 1 (lnot (strncmp v (cstr "off") 3)) = if v.take 3 = cstr "off" then 1 else 0 := by
  by_cases h : strncmp v (cstr "off") 3 = 0
  · have h' : v.take 3 = cstr "off" := (strncmp_off v).mp h
    rw [if_pos h', h]
    decide
  · have h' : ¬ v.take 3 = cstr "off" := fun e => h ((strncmp_off v).mpr e)
    rw [if_neg h']
    simp only [lnot, h, if_false]
    decide

/-- The option loop on a token `callin=v`. -/
theorem set_user_access_opts_callin (E : Externals) (v : cstring) (rest : List cstring)
    (sa : set_user_access_data) :
    set_user_access_opts E ((cstr "callin=" ++ v) :: rest) sa
      = set_user_access_opts E rest
          { sa with callin_callback := if v.take 3 = cstr "off" then 1 else 0 } := by
  have hk : strncmp (cstr "callin=" ++ v) (cstr "callin=") 7 = 0 :=
    (strncmp_callin _).mpr (List.take_left' (by decide))
  have hd : (cstr "callin=" ++ v).drop 7 = v := List.drop_left' (by decide)
  rw [set_user_access_opts, if_pos hk, hd, callin_value]

/-- C7 (as amended): in `ipmi_set_user_access` a token `callin=v` sets
`callin_callback` to 1 (true) when `v` begins with `off` and to 0 (false) for
every other `v` (in particular `callin=on`), leaving the other fields as they
are; so `setaccess <channel> <id> callin=v` on a baseline that was read
successfully sends the baseline with `callin_callback` so replaced. -/
theorem set_user_access_callin {σ : Type} (E : Externals) (intf : ipmi_intf σ)
    (ch uid v : cstring) (w : World σ) (rs : ipmi_rs)
    (hch : ch.take 4 ≠ cstr "help")
    (hrs : (intf.sendrecv (intf.session_set_privlvl w.st E.IPMI_SESSION_PRIV_ADMIN)
      (user_access_rq (to_uchar (E.strtol ch) &&& 0xf)
        (to_uchar (E.strtol uid) &&& 0x3f))).1 = some rs)
    (hcc : rs.ccode = 0) :
    (∀ (rest : List cstring) (sa : set_user_access_data),
      set_user_access_opts E ((cstr "callin=" ++ v) :: rest) sa
        = set_user_access_opts E rest
            { sa with callin_callback := if v.take 3 = cstr "off" then 1 else 0 }) ∧
    (ipmi_set_user_access E intf [ch, uid, cstr "callin=" ++ v] w).2.sent
      = w.sent ++ [user_access_rq (to_uchar (E.strtol ch) &&& 0xf)
          (to_uchar (E.strtol uid) &&& 0x3f),
        set_user_access_rq
          { set_access_init (to_uchar (E.strtol ch)) (to_uchar (E.strtol uid))
              (get_user_access_rsp.decode rs.data) with
            callin_callback := if v.take 3 = cstr "off" then 1 else 0 }] := by
  refine ⟨fun rest sa => set_user_access_opts_callin E v rest sa, ?_⟩
  rw [set_user_access_past_usage E intf ch uid _ [] w hch]
  have e1 := send_eq_of_fst intf (user_access_rq (to_uchar (E.strtol ch) &&& 0xf)
    (to_uchar (E.strtol uid) &&& 0x3f))
    (ipmi_intf_session_set_privlvl intf E.IPMI_SESSION_PRIV_ADMIN w) (some rs) hrs
  rw [e1]
  have hc : ¬ rs.ccode > 0 := by omega
  simp only [hc, if_false]
  rw [set_user_access_opts_callin, set_user_access_opts]
  simp only []
  generalize hsa : ({ set_access_init (to_uchar (E.strtol ch)) (to_uchar (E.strtol uid))
      (get_user_access_rsp.decode rs.data) with
      callin_callback := if v.take 3 = cstr "off" then 1 else 0 } : set_user_access_data) = sa
  generalize hw1 : (send intf (user_access_rq (to_uchar (E.strtol ch) &&& 0xf)
    (to_uchar (E.strtol uid) &&& 0x3f))
    (ipmi_intf_session_set_privlvl intf E.IPMI_SESSION_PRIV_ADMIN w)).2 = w1
  have hs1 : w1.sent = w.sent ++ [user_access_rq (to_uchar (E.strtol ch) &&& 0xf)
      (to_uchar (E.strtol uid) &&& 0x3f)] := by
    rw [← hw1, send_sent, set_privlvl_sent]
  generalize hr2 : send intf (set_user_access_rq sa) w1 = r2
  have hs2 := send_sent intf (set_user_access_rq sa) w1
  rw [hr2] at hs2
  obtain ⟨rsp2, w2⟩ := r2
  simp only at hs2
  have hsent : w2.sent = w.sent ++ [user_access_rq (to_uchar (E.strtol ch) &&& 0xf)
      (to_uchar (E.strtol uid) &&& 0x3f), set_user_access_rq sa] := by
    rw [hs2, hs1, List.append_assoc]; rfl
  cases rsp2 with
  | none => simpa using hsent
  | some rs2 =>
    by_cases hc2 : rs2.ccode > 0
    · simpa [hc2] using hsent
    · simpa [hc2] using hsent

/-- C7, closed instance: `setaccess 1 2 callin=on`. -/
theorem set_user_access_callin_witness :
    (ipmi_set_user_access demo_externals (const_intf (some callin_user_rs))
        [cstr "1", cstr "2", cstr "callin=" ++ cstr "on"] (World.init ())).2.sent
      = (World.init ()).sent ++
        [user_access_rq (to_uchar (demo_externals.strtol (cstr "1")) &&& 0xf)
          (to_uchar (demo_externals.strtol (cstr "2")) &&& 0x3f),
        set_user_access_rq
          { set_access_init (to_uchar (demo_externals.strtol (cstr "1")))
              (to_uchar (demo_externals.strtol (cstr "2")))
              (get_user_access_rsp.decode callin_user_rs.data) with
            callin_callback := if (cstr "on").take 3 = cstr "off" then 1 else 0 }] :=
  (set_user_access_callin demo_externals (const_intf (some callin_user_rs))
    (cstr "1") (cstr "2") (cstr "on") (World.init ()) callin_user_rs
    (by decide) rfl rfl).2

/-- C8, evaluated: `strncmp("on", "off", 3)` is 8, and a one-bit field keeps
only its lowest bit, so `setaccess 1 2 link=on` on a baseline with
`link_auth = 1` sends `link_auth = 0`, and `setaccess 1 2 ipmi=on` on a
baseline with `ipmi_messaging = 1` sends `ipmi_messaging = 0`. -/
theorem set_user_access_link_on_stores_zero :
    strncmp (cstr "on") (cstr "off") 3 = 8 ∧
      (get_user_access_rsp.decode demo_user_rs.data).link_auth = 1 ∧
      (get_user_access_rsp.decode demo_user_rs.data).ipmi_messaging = 1 ∧
      (ipmi_set_user_access demo_externals (const_intf (some demo_user_rs))
          [cstr "1", cstr "2", cstr "link=on"] (World.init ())).2.sent
        = [user_access_rq 1 2,
          set_user_access_rq
            { change_bits := 1, callin_callback := 0, link_auth := 0, ipmi_messaging := 1,
              channel := 1, user_id := 2, privilege_limit := 4, session_limit := 0 }] ∧
      (ipmi_set_user_access demo_externals (const_intf (some demo_user_rs))
          [cstr "1", cstr "2", cstr "ipmi=on"] (World.init ())).2.sent
        = [user_access_rq 1 2,
          set_user_access_rq
            { change_bits := 1, callin_callback := 0, link_auth := 1, ipmi_messaging := 0,
              channel := 1, user_id := 2, privilege_limit := 4, session_limit := 0 }] := by
  refine ⟨?_, ?_, ?_, ?_, ?_⟩ <;> decide

/-! ### `ipmi_channel_main` -/

/-- C10 as stated fails: `authcap 1` (privilege missing), `getaccess` (channel
missing) and `info 1 2` (one argument too many) all return 0, not -1. -/
theorem channel_main_usage_counterexample :
    (ipmi_channel_main demo_externals (const_intf (some demo_user_rs)) 10
        [cstr "authcap", cstr "1"] (World.init ())).map (fun r => r.1) = some 0 ∧
      (ipmi_channel_main demo_externals (const_intf (some demo_user_rs)) 10
        [cstr "getaccess"] (World.init ())).map (fun r => r.1) = some 0 ∧
      (ipmi_channel_main demo_externals (const_intf (some demo_user_rs)) 10
        [cstr "info", cstr "1", cstr "2"] (World.init ())).map (fun r => r.1) = some 0 := by
  refine ⟨?_, ?_, ?_⟩ <;> decide

/-- C10 (as amended): on each of the argument-count errors (`authcap` with an
argument count other than channel + privilege, `getaccess` with no channel or
with more than channel + id, `info` with more than one argument)
`ipmi_channel_main` prints the usage text, hands no request to the transport
and returns 0, the initial value of `retval`. -/
theorem channel_main_usage_returns_zero {σ : Type} (E : Externals) (intf : ipmi_intf σ)
    (fuel : Nat) (argv : List cstring) (w : World σ) (h : usage_error argv) :
    ipmi_channel_main E intf fuel argv w = some (0, printf_channel_usage w) ∧
      (printf_channel_usage w).sent = w.sent := by
  refine ⟨?_, printf_channel_usage_sent w⟩
  have hA1 : ¬ strncmp (cstr "authcap") (cstr "help") 4 = 0 := by decide
  have hA2 : strncmp (cstr "authcap") (cstr "authcap") 7 = 0 := by decide
  have hG1 : ¬ strncmp (cstr "getaccess") (cstr "help") 4 = 0 := by decide
  have hG2 : ¬ strncmp (cstr "getaccess") (cstr "authcap") 7 = 0 := by decide
  have hG3 : strncmp (cstr "getaccess") (cstr "getaccess") 10 = 0 := by decide
  have hI1 : ¬ strncmp (cstr "info") (cstr "help") 4 = 0 := by decide
  have hI2 : ¬ strncmp (cstr "info") (cstr "authcap") 7 = 0 := by decide
  have hI3 : ¬ strncmp (cstr "info") (cstr "getaccess") 10 = 0 := by decide
  have hI4 : ¬ strncmp (cstr "info") (cstr "setaccess") 9 = 0 := by decide
  have hI5 : strncmp (cstr "info") (cstr "info") 4 = 0 := by decide
  rcases h with ⟨args, rfl, hlen⟩ | ⟨args, rfl, hlen⟩ | ⟨args, rfl, hlen⟩
  · unfold ipmi_channel_main
    simp only [List.length_cons, List.getD_cons_zero, hA1, hA2, or_false, if_true, if_false,
      Nat.succ_ne_zero]
    have : args.length + 1 ≠ 3 := by omega
    simp [this]
  · unfold ipmi_channel_main
    simp only [List.length_cons, List.getD_cons_zero, hG1, hG2, hG3, or_false, if_true,
      if_false, Nat.succ_ne_zero]
    have : args.length + 1 < 2 ∨ args.length + 1 > 3 := by omega
    simp [this]
  · unfold ipmi_channel_main
    simp only [List.length_cons, List.getD_cons_zero, hI1, hI2, hI3, hI4, hI5, or_false,
      if_true, if_false, Nat.succ_ne_zero]
    have : args.length + 1 > 2 := by omega
    simp [this]

/-- C10, closed instance: `authcap 1`. -/
theorem channel_main_usage_returns_zero_witness :
    ipmi_channel_main demo_externals (const_intf (some demo_user_rs)) 10
        [cstr "authcap", cstr "1"] (World.init ())
      = some (0, printf_channel_usage (World.init ())) ∧
      (printf_channel_usage (World.init () : World Unit)).sent = (World.init ()).sent :=
  channel_main_usage_returns_zero demo_externals (const_intf (some demo_user_rs)) 10
    [cstr "authcap", cstr "1"] (World.init ())
    (Or.inl ⟨[cstr "1"], rfl, by decide⟩)

/-! ### `ipmi_get_channel_info` -/

theorem channel_info_report_sent {σ : Type} (E : Externals) (rsp : ipmi_rs) (w : World σ) :
    (channel_info_report E rsp w).sent = w.sent := by
  simp only [channel_info_report, printf_sent]

theorem channel_info_report_st {σ : Type} (E : Externals) (rsp : ipmi_rs) (w : World σ) :
    (channel_info_report E rsp w).st = w.st := by
  simp only [channel_info_report, printf_st]

theorem channel_access_report_sent {σ : Type} (title : String) (rsp : ipmi_rs) (w : World σ) :
    (channel_access_report title rsp w).sent = w.sent := by
  simp only [channel_access_report, printf_sent]

theorem channel_access_report_st {σ : Type} (title : String) (rsp : ipmi_rs) (w : World σ) :
    (channel_access_report title rsp w).st = w.st := by
  simp only [channel_access_report, printf_st]

theorem rsp_failed_some_iff (rs : ipmi_rs) : rsp_failed (some rs) = false ↔ rs.ccode = 0 := by
  simp [rsp_failed]

/-- The four ways `ipmi_get_channel_info` can run, `a`, `b`, `c` being the
answers of the transport to its three requests in turn. -/
theorem get_channel_info_cases {σ : Type} (E : Externals) (intf : ipmi_intf σ)
    (channel : Nat) (w : World σ) (a b c : Option ipmi_rs × σ)
    (ha : a = intf.sendrecv w.st (channel_info_rq channel))
    (hb : b = intf.sendrecv a.2 (channel_access_rq (channel &&& 0xf) 0x80))
    (hc : c = intf.sendrecv b.2 (channel_access_rq (channel &&& 0xf) 0x40)) :
    (rsp_failed a.1 = true ∧ (ipmi_get_channel_info E intf channel w).1 = -1 ∧
      (ipmi_get_channel_info E intf channel w).2.sent = w.sent ++ [channel_info_rq channel]) ∨
    (rsp_failed a.1 = false ∧ rsp_failed b.1 = true ∧
      (ipmi_get_channel_info E intf channel w).1 = -1 ∧
      (ipmi_get_channel_info E intf channel w).2.sent
        = w.sent ++ [channel_info_rq channel, channel_access_rq (channel &&& 0xf) 0x80]) ∨
    (rsp_failed a.1 = false ∧ rsp_failed b.1 = false ∧ rsp_failed c.1 = true ∧
      (ipmi_get_channel_info E intf channel w).1 = -1 ∧
      (ipmi_get_channel_info E intf channel w).2.sent
        = w.sent ++ [channel_info_rq channel, channel_access_rq (channel &&& 0xf) 0x80,
            channel_access_rq (channel &&& 0xf) 0x40]) ∨
    (∃ rs1 rs2 rs3, a.1 = some rs1 ∧ rs1.ccode = 0 ∧ b.1 = some rs2 ∧ rs2.ccode = 0 ∧
      c.1 = some rs3 ∧ rs3.ccode = 0 ∧
      (ipmi_get_channel_info E intf channel w).1 = 0 ∧
      (ipmi_get_channel_info E intf channel w).2.sent
        = w.sent ++ [channel_info_rq channel, channel_access_rq (channel &&& 0xf) 0x80,
            channel_access_rq (channel &&& 0xf) 0x40] ∧
      (ipmi_get_channel_info E intf channel w).2.out
        = (channel_access_report "  Non-Volatile Settings\n" rs3
            (channel_access_report "  Volatile(active) Settings\n" rs2
              (channel_info_report E rs1 w))).out) := by
  rcases a with ⟨a1, sa⟩
  rcases b with ⟨b1, sb⟩
  rcases c with ⟨c1, sc⟩
  simp only at hb hc
  unfold ipmi_get_channel_info
  cases a1 with
  | none =>
    left
    simp [send, ← ha, rsp_failed]
  | some rs1 =>
    by_cases h1 : rs1.ccode > 0
    · left
      simp [send, ← ha, rsp_failed, h1]
    · right
      have h1' : rs1.ccode = 0 := by omega
      cases b1 with
      | none =>
        left
        simp [send, ← ha, ← hb, rsp_failed, h1', channel_info_report_st,
          channel_info_report_sent]
      | some rs2 =>
        by_cases h2 : rs2.ccode > 0
        · left
          simp [send, ← ha, ← hb, rsp_failed, h1', h2, channel_info_report_st,
            channel_info_report_sent]
        · right
          have h2' : rs2.ccode = 0 := by omega
          cases c1 with
          | none =>
            left
            simp [send, ← ha, ← hb, ← hc, rsp_failed, h1', h2', channel_info_report_st,
              channel_info_report_sent, channel_access_report_st, channel_access_report_sent]
          | some rs3 =>
            by_cases h3 : rs3.ccode > 0
            · left
              simp [send, ← ha, ← hb, ← hc, rsp_failed, h1', h2', h3, channel_info_report_st,
                channel_info_report_sent, channel_access_report_st,
                channel_access_report_sent]
            · right
              have h3' : rs3.ccode = 0 := by omega
              refine ⟨rs1, rs2, rs3, rfl, h1', rfl, h2', rfl, h3', ?_, ?_, ?_⟩
              · simp [send, ← ha, ← hb, ← hc, h1', h2', h3', channel_info_report_st,
                  channel_info_report_sent, channel_access_report_st,
                  channel_access_report_sent]
              · simp [send, ← ha, ← hb, ← hc, h1', h2', h3', channel_info_report_st,
                  channel_info_report_sent, channel_access_report_st,
                  channel_access_report_sent]
              · simp [send, ← ha, ← hb, ← hc, h1', h2', h3', channel_info_report_st,
                  channel_info_report_sent, channel_access_report_st,
                  channel_access_report_sent]
                rfl

/-- The events one Get Channel Access section adds to the output. -/
theorem channel_access_report_out {σ : Type} (title : String) (rsp : ipmi_rs) (w : World σ) :
    (channel_access_report title rsp w).out
      = w.out ++
        [Event.printf title [],
         Event.printf "    Alerting            : %sabled\n"
           [Arg.str (cond_str (get_channel_access_rsp.decode rsp.data).alerting "dis" "en")],
         Event.printf "    Per-message Auth    : %sabled\n"
           [Arg.str (cond_str (get_channel_access_rsp.decode rsp.data).per_message_auth
             "dis" "en")],
         Event.printf "    User Level Auth     : %sabled\n"
           [Arg.str (cond_str (get_channel_access_rsp.decode rsp.data).user_level_auth
             "dis" "en")],
         Event.printf "    Access Mode         : " [],
         Event.printf (access_mode_str (get_channel_access_rsp.decode rsp.data).access_mode)
           []] := by
  simp [channel_access_report, printf]

/-- The events the channel-info lines add to the output. -/
theorem channel_info_report_out {σ : Type} (E : Externals) (rsp : ipmi_rs) (w : World σ) :
    (channel_info_report E rsp w).out
      = w.out ++
        [Event.printf "Channel 0x%x info:\n"
           [Arg.num (get_channel_info_rsp.decode rsp.data).channel_number],
         Event.printf "  Channel Medium Type   : %s\n"
           [Arg.str (E.val2str (get_channel_info_rsp.decode rsp.data).channel_medium
             E.ipmi_channel_medium_vals)],
         Event.printf "  Channel Protocol Type : %s\n"
           [Arg.str (E.val2str (get_channel_info_rsp.decode rsp.data).channel_protocol
             E.ipmi_channel_protocol_vals)],
         Event.printf "  Session Support       : " [],
         Event.printf (session_support_str (get_channel_info_rsp.decode rsp.data).session_support)
           [],
         Event.printf "  Active Session Count  : %d\n"
           [Arg.num (get_channel_info_rsp.decode rsp.data).active_sessions],
         Event.printf "  Protocol Vendor ID    : %d\n"
           [Arg.num ((byte_at rsp.data 4 ||| byte_at rsp.data 5 <<< 8
             ||| byte_at rsp.data 6 <<< 16 : Nat) : Int)]] := by
  simp [channel_info_report, printf, get_channel_info_rsp.decode]

/-- C12: for every channel and every transport that always succeeds,
`ipmi_get_channel_info` returns 0 after exactly three requests, in this order:
a Get Channel Info request whose data is the single byte `channel`, then two
Get Channel Access requests `[channel & 0xF, 0x80]` and `[channel & 0xF, 0x40]`,
equal but for the mode-selector byte.  What it prints is, in order: the seven
channel-info lines decoded from the first response; the title
`Volatile(active) Settings` followed by the alerting, per-message, user-level
and access-mode lines decoded from the second response; the title
`Non-Volatile Settings` followed by the same four lines decoded from the
third response. -/
theorem get_channel_info_three_requests {σ : Type} (E : Externals) (intf : ipmi_intf σ)
    (hok : always_succeeds intf) (channel : Nat) (w : World σ) :
    ∃ rs1 rs2 rs3,
      (intf.sendrecv w.st (channel_info_rq channel)).1 = some rs1 ∧
      (intf.sendrecv (intf.sendrecv w.st (channel_info_rq channel)).2
        (channel_access_rq (channel &&& 0xf) 0x80)).1 = some rs2 ∧
      (intf.sendrecv (intf.sendrecv (intf.sendrecv w.st (channel_info_rq channel)).2
        (channel_access_rq (channel &&& 0xf) 0x80)).2
        (channel_access_rq (channel &&& 0xf) 0x40)).1 = some rs3 ∧
      (ipmi_get_channel_info E intf channel w).1 = 0 ∧
      (ipmi_get_channel_info E intf channel w).2.sent
        = w.sent ++
          [{ netfn := NetFn.IPMI_NETFN_APP, cmd := Cmd.IPMI_GET_CHANNEL_INFO,
             data := rq_data.bytes [channel % 256], data_len := 1 },
           { netfn := NetFn.IPMI_NETFN_APP, cmd := Cmd.IPMI_GET_CHANNEL_ACCESS,
             data := rq_data.bytes [channel &&& 0xf, 0x80], data_len := 2 },
           { netfn := NetFn.IPMI_NETFN_APP, cmd := Cmd.IPMI_GET_CHANNEL_ACCESS,
             data := rq_data.bytes [channel &&& 0xf, 0x40], data_len := 2 }] ∧
      (ipmi_get_channel_info E intf channel w).2.out
        = w.out ++
          [Event.printf "Channel 0x%x info:\n"
             [Arg.num (get_channel_info_rsp.decode rs1.data).channel_number],
           Event.printf "  Channel Medium Type   : %s\n"
             [Arg.str (E.val2str (get_channel_info_rsp.decode rs1.data).channel_medium
               E.ipmi_channel_medium_vals)],
           Event.printf "  Channel Protocol Type : %s\n"
             [Arg.str (E.val2str (get_channel_info_rsp.decode rs1.data).channel_protocol
               E.ipmi_channel_protocol_vals)],
           Event.printf "  Session Support       : " [],
           Event.printf
             (session_support_str (get_channel_info_rsp.decode rs1.data).session_support) [],
           Event.printf "  Active Session Count  : %d\n"
             [Arg.num (get_channel_info_rsp.decode rs1.data).active_sessions],
           Event.printf "  Protocol Vendor ID    : %d\n"
             [Arg.num ((byte_at rs1.data 4 ||| byte_at rs1.data 5 <<< 8
               ||| byte_at rs1.data 6 <<< 16 : Nat) : Int)]] ++
          [Event.printf "  Volatile(active) Settings\n" [],
           Event.printf "    Alerting            : %sabled\n"
             [Arg.str (cond_str (get_channel_access_rsp.decode rs2.data).alerting "dis" "en")],
           Event.printf "    Per-message Auth    : %sabled\n"
             [Arg.str (cond_str (get_channel_access_rsp.decode rs2.data).per_message_auth
               "dis" "en")],
           Event.printf "    User Level Auth     : %sabled\n"
             [Arg.str (cond_str (get_channel_access_rsp.decode rs2.data).user_level_auth
               "dis" "en")],
           Event.printf "    Access Mode         : " [],
           Event.printf (access_mode_str (get_channel_access_rsp.decode rs2.data).access_mode)
             []] ++
          [Event.printf "  Non-Volatile Settings\n" [],
           Event.printf "    Alerting            : %sabled\n"
             [Arg.str (cond_str (get_channel_access_rsp.decode rs3.data).alerting "dis" "en")],
           Event.printf "    Per-message Auth    : %sabled\n"
             [Arg.str (cond_str (get_channel_access_rsp.decode rs3.data).per_message_auth
               "dis" "en")],
           Event.printf "    User Level Auth     : %sabled\n"
             [Arg.str (cond_str (get_channel_access_rsp.decode rs3.data).user_level_auth
               "dis" "en")],
           Event.printf "    Access Mode         : " [],
           Event.printf (access_mode_str (get_channel_access_rsp.decode rs3.data).access_mode)
             []] := by
  obtain ⟨x1, hx1, hc1⟩ := hok w.st (channel_info_rq channel)
  obtain ⟨x2, hx2, hc2⟩ := hok (intf.sendrecv w.st (channel_info_rq channel)).2
    (channel_access_rq (channel &&& 0xf) 0x80)
  obtain ⟨x3, hx3, hc3⟩ := hok (intf.sendrecv (intf.sendrecv w.st (channel_info_rq channel)).2
    (channel_access_rq (channel &&& 0xf) 0x80)).2 (channel_access_rq (channel &&& 0xf) 0x40)
  rcases get_channel_info_cases E intf channel w _ _ _ rfl rfl rfl with
    h | h | h | ⟨rs1, rs2, rs3, h1, -, h2, -, h3, -, hret, hsent, hout⟩
  · rw [hx1] at h; simp [rsp_failed, hc1] at h
  · rw [hx2] at h; simp [rsp_failed, hc2] at h
  · rw [hx3] at h; simp [rsp_failed, hc3] at h
  · refine ⟨rs1, rs2, rs3, h1, h2, h3, hret, hsent, ?_⟩
    rw [hout, channel_access_report_out, channel_access_report_out, channel_info_report_out]

/-- C12, closed instance: channel 1 against a transport that always answers
with completion code 0: result 0, the three requests, and each section title
printed once, the volatile one first. -/
theorem get_channel_info_three_requests_witness :
    (ipmi_get_channel_info demo_externals (const_intf (some demo_channel_rs)) 1
        (World.init ())).1 = 0 ∧
      (ipmi_get_channel_info demo_externals (const_intf (some demo_channel_rs)) 1
        (World.init ())).2.sent
        = [channel_info_rq 1, channel_access_rq 1 0x80, channel_access_rq 1 0x40] ∧
      ((ipmi_get_channel_info demo_externals (const_intf (some demo_channel_rs)) 1
        (World.init ())).2.out.drop 7).head?
        = some (Event.printf "  Volatile(active) Settings\n" []) ∧
      ((ipmi_get_channel_info demo_externals (const_intf (some demo_channel_rs)) 1
        (World.init ())).2.out.drop 13).head?
        = some (Event.printf "  Non-Volatile Settings\n" []) := by
  obtain ⟨_, _, _, -, -, -, hret, hsent, hout⟩ :=
    get_channel_info_three_requests demo_externals (const_intf (some demo_channel_rs))
      (fun _ _ => ⟨demo_channel_rs, rfl, rfl⟩) 1 (World.init ())
  refine ⟨hret, hsent, ?_, ?_⟩
  · rw [hout]; rfl
  · rw [hout]; rfl

/-- C13: `ipmi_channel_main` invoked with `info` and no channel argument runs
`ipmi_get_channel_info` on channel `0xE`: the requests it issues are the first
`k` (1 ≤ k ≤ 3, cut only by a failing round trip) of Get Channel Info `[0xE]`,
Get Channel Access `[0xE, 0x80]`, Get Channel Access `[0xE, 0x40]`, and all
three against a transport that always succeeds. -/
theorem channel_main_info_default_channel {σ : Type} (E : Externals) (intf : ipmi_intf σ)
    (fuel : Nat) (w : World σ) :
    ipmi_channel_main E intf fuel [cstr "info"] w
        = some (ipmi_get_channel_info E intf 0xE w) ∧
      ∃ k, 1 ≤ k ∧ k ≤ 3 ∧
        (ipmi_get_channel_info E intf 0xE w).2.sent
          = w.sent ++ List.take k
            [{ netfn := NetFn.IPMI_NETFN_APP, cmd := Cmd.IPMI_GET_CHANNEL_INFO,
               data := rq_data.bytes [0xE], data_len := 1 },
             { netfn := NetFn.IPMI_NETFN_APP, cmd := Cmd.IPMI_GET_CHANNEL_ACCESS,
               data := rq_data.bytes [0xE, 0x80], data_len := 2 },
             { netfn := NetFn.IPMI_NETFN_APP, cmd := Cmd.IPMI_GET_CHANNEL_ACCESS,
               data := rq_data.bytes [0xE, 0x40], data_len := 2 }] ∧
        (always_succeeds intf → k = 3) := by
  constructor
  · have h1 : ¬ strncmp (cstr "info") (cstr "help") 4 = 0 := by decide
    have h2 : ¬ strncmp (cstr "info") (cstr "authcap") 7 = 0 := by decide
    have h3 : ¬ strncmp (cstr "info") (cstr "getaccess") 10 = 0 := by decide
    have h4 : ¬ strncmp (cstr "info") (cstr "setaccess") 9 = 0 := by decide
    have h5 : strncmp (cstr "info") (cstr "info") 4 = 0 := by decide
    unfold ipmi_channel_main
    simp [h1, h2, h3, h4, h5]
  · have e1 : channel_info_rq 0xE
        = { netfn := NetFn.IPMI_NETFN_APP, cmd := Cmd.IPMI_GET_CHANNEL_INFO,
            data := rq_data.bytes [0xE], data_len := 1 } := rfl
    have e2 : ∀ b, channel_access_rq (0xE &&& 0xf) b
        = { netfn := NetFn.IPMI_NETFN_APP, cmd := Cmd.IPMI_GET_CHANNEL_ACCESS,
            data := rq_data.bytes [0xE, b], data_len := 2 } := fun _ => rfl
    rcases get_channel_info_cases E intf 0xE w _ _ _ rfl rfl rfl with
      ⟨hf, -, hs⟩ | ⟨-, hf, -, hs⟩ | ⟨-, -, hf, -, hs⟩ | ⟨rs1, rs2, rs3, -, -, -, -, -, -, -, hs, -⟩
    · refine ⟨1, le_refl _, by norm_num, ?_, fun hok => ?_⟩
      · rw [hs, e1]; rfl
      · obtain ⟨x, hx, hc⟩ := hok w.st (channel_info_rq 0xE)
        rw [hx] at hf; simp [rsp_failed, hc] at hf
    · refine ⟨2, by norm_num, by norm_num, ?_, fun hok => ?_⟩
      · rw [hs, e1, e2]; rfl
      · obtain ⟨x, hx, hc⟩ := hok (intf.sendrecv w.st (channel_info_rq 0xE)).2
          (channel_access_rq (0xE &&& 0xf) 0x80)
        rw [hx] at hf; simp [rsp_failed, hc] at hf
    · exact ⟨3, by norm_num, le_refl _, by rw [hs, e1, e2, e2]; rfl, fun _ => rfl⟩
    · exact ⟨3, by norm_num, le_refl _, by rw [hs, e1, e2, e2]; rfl, fun _ => rfl⟩

/-- C13, closed instance: `info` alone against a transport that always
succeeds sends the three requests for channel `0xE`. -/
theorem channel_main_info_default_channel_witness :
    (ipmi_channel_main demo_externals (const_intf (some demo_channel_rs)) 0 [cstr "info"]
        (World.init ())).map (fun r => r.2.sent)
      = some [channel_info_rq 0xE, channel_access_rq 0xE 0x80, channel_access_rq 0xE 0x40] := by
  obtain ⟨hmain, k, -, -, hs, hk⟩ :=
    channel_main_info_default_channel demo_externals (const_intf (some demo_channel_rs)) 0
      (World.init ())
  have h3 : k = 3 := hk (fun _ _ => ⟨demo_channel_rs, rfl, rfl⟩)
  subst h3
  rw [hmain, Option.map_some', hs]
  rfl

/-- C14, evaluated: `session_support` is a 2-bit field, so the value the
`switch` sees is 0..3 and its arms `0x40` and `0x80` never match: whatever the
device answers, the label printed is `session-less` or `session-based`.  A
response whose session bits say single-session (fourth byte `0x40`) decodes to
1 and one whose bits say multi-session (`0x80`) decodes to 2; for both
`ipmi_get_channel_info` prints `session-based`. -/
theorem session_support_single_multi_unreachable :
    (∀ d : List Nat,
      session_support_str (get_channel_info_rsp.decode d).session_support = "session-less\n" ∨
      session_support_str (get_channel_info_rsp.decode d).session_support = "session-based\n") ∧
    (get_channel_info_rsp.decode demo_channel_rs.data).session_support = 1 ∧
    (get_channel_info_rsp.decode multi_channel_rs.data).session_support = 2 ∧
    printed "single-session\n" (ipmi_get_channel_info demo_externals
      (const_intf (some demo_channel_rs)) 0xE (World.init ())).2.out = [] ∧
    printed "session-based\n" (ipmi_get_channel_info demo_externals
      (const_intf (some demo_channel_rs)) 0xE (World.init ())).2.out = [[]] ∧
    printed "multi-session\n" (ipmi_get_channel_info demo_externals
      (const_intf (some multi_channel_rs)) 0xE (World.init ())).2.out = [] ∧
    printed "session-based\n" (ipmi_get_channel_info demo_externals
      (const_intf (some multi_channel_rs)) 0xE (World.init ())).2.out = [[]] := by
  refine ⟨fun d => ?_, by decide, by decide, by decide, by decide, by decide, by decide⟩
  have h : (get_channel_info_rsp.decode d).session_support < 4 := by
    simp only [get_channel_info_rsp.decode]
    exact Nat.mod_lt _ (by norm_num)
  generalize (get_channel_info_rsp.decode d).session_support = s at h
  interval_cases s <;> simp [session_support_str]

/-! ### What is printed for the flags -/

/-- C16: the access-mode `switch`, the same in the volatile and the
non-volatile section of `ipmi_get_channel_info`, prints `disabled`,
`pre-boot only`, `always available`, `shared` for the values 0, 1, 2, 3 (four
pairwise distinct labels) and `unknown` for every value from 4 on; in both
sections it is the last thing printed, applied to the `access_mode` decoded
from that section's own response. -/
theorem access_mode_labels {σ : Type} (rsp : ipmi_rs) (w : World σ) :
    access_mode_str 0 = "disabled\n" ∧ access_mode_str 1 = "pre-boot only\n" ∧
    access_mode_str 2 = "always available\n" ∧ access_mode_str 3 = "shared\n" ∧
    (∀ m, 4 ≤ m → access_mode_str m = "unknown\n") ∧
    ["disabled\n", "pre-boot only\n", "always available\n", "shared\n"].Nodup ∧
    (channel_access_report "  Volatile(active) Settings\n" rsp w).out.getLast?
      = some (Event.printf
          (access_mode_str (get_channel_access_rsp.decode rsp.data).access_mode) []) ∧
    (channel_access_report "  Non-Volatile Settings\n" rsp w).out.getLast?
      = some (Event.printf
          (access_mode_str (get_channel_access_rsp.decode rsp.data).access_mode) []) := by
  refine ⟨by decide, by decide, by decide, by decide, fun m hm => ?_, by decide, ?_, ?_⟩
  · have h0 : m ≠ 0 := by omega
    have h1 : m ≠ 1 := by omega
    have h2 : m ≠ 2 := by omega
    have h3 : m ≠ 3 := by omega
    simp [access_mode_str, h0, h1, h2, h3]
  · rw [channel_access_report_out]; simp
  · rw [channel_access_report_out]; simp

/-- What the reporting part prints depends on the world only through what was
printed before. -/
theorem auth_cap_report_out_congr {σ : Type} (E : Externals) (rsp : ipmi_rs)
    (w w' : World σ) (h : w.out = w'.out) :
    (ipmi_get_channel_auth_cap_report E rsp w).2.out
      = (ipmi_get_channel_auth_cap_report E rsp w').2.out := by
  simp only [ipmi_get_channel_auth_cap_report]
  split_ifs <;> simp [printf, h]

/-- When a round trip of `ipmi_get_channel_auth_cap` succeeds, its response is
the one reported: the first one, or else the one of the retry. -/
theorem auth_cap_out_of_success {σ : Type} (E : Externals) (intf : ipmi_intf σ)
    (channel priv : Nat) (w : World σ) :
    (∀ rs1, (intf.sendrecv w.st (auth_cap_rq ((channel ||| 0x80) % 256) (priv % 256))).1
          = some rs1 → rs1.ccode = 0 →
      (ipmi_get_channel_auth_cap E intf channel priv w).2.out
        = (ipmi_get_channel_auth_cap_report E rs1 w).2.out) ∧
    (∀ rs2, rsp_failed (intf.sendrecv w.st
          (auth_cap_rq ((channel ||| 0x80) % 256) (priv % 256))).1 = true →
      (intf.sendrecv (intf.sendrecv w.st
          (auth_cap_rq ((channel ||| 0x80) % 256) (priv % 256))).2
        (auth_cap_rq (((channel ||| 0x80) % 256) &&& 0x7F) (priv % 256))).1 = some rs2 →
      rs2.ccode = 0 →
      (ipmi_get_channel_auth_cap E intf channel priv w).2.out
        = (ipmi_get_channel_auth_cap_report E rs2 w).2.out) := by
  constructor
  · intro rs1 h1 hc1
    unfold ipmi_get_channel_auth_cap
    simp only [send, h1, hc1, gt_iff_lt, lt_self_iff_false, if_false]
    exact auth_cap_report_out_congr E rs1 _ _ rfl
  · intro rs2 hf h2 hc2
    unfold ipmi_get_channel_auth_cap
    rcases hq : intf.sendrecv w.st (auth_cap_rq ((channel ||| 0x80) % 256) (priv % 256))
      with ⟨a1, sa⟩
    rw [hq] at hf h2
    simp only at hf h2
    cases a1 with
    | none =>
      simp only [send, hq, ipmi_get_channel_auth_cap_retry, h2, hc2, gt_iff_lt,
        lt_self_iff_false, if_false]
      exact auth_cap_report_out_congr E rs2 _ _ rfl
    | some rs1 =>
      have hc1 : rs1.ccode > 0 := by simpa [rsp_failed] using hf
      simp only [send, hq, hc1, if_true, ipmi_get_channel_auth_cap_retry, h2, hc2, gt_iff_lt,
        lt_self_iff_false, if_false]
      exact auth_cap_report_out_congr E rs2 _ _ rfl

/-- The characters the loop of `ipmi_1_5_authtypes` appends to the buffer. -/
theorem authtypes_loop_data (n : Nat) (tbl : List valstr) (acc : String) :
    (ipmi_1_5_authtypes_loop n tbl acc).data
      = acc.data ++ (matching_names tbl n).flatMap (fun s => s.data ++ [' ']) := by
  induction tbl generalizing acc with
  | nil => simp [ipmi_1_5_authtypes_loop, matching_names, table_rows]
  | cons e rest ih =>
    rw [ipmi_1_5_authtypes_loop]
    by_cases h0 : e.val = 0
    · simp [h0, matching_names, table_rows]
    · by_cases hn : n &&& e.val ≠ 0
      · rw [if_neg h0, if_pos hn, ih]
        have hs : (" " : String).data = [' '] := rfl
        simp [matching_names, table_rows, h0, hn, String.data_append, hs] at *
      · rw [if_neg h0, if_neg hn, ih]
        simp [matching_names, table_rows, h0, hn] at *

theorem read_names_name (s : List Char) (hs : ' ' ∉ s) (cur rest : List Char) :
    read_names cur (s ++ ' ' :: rest) = (cur ++ s) :: read_names [] rest := by
  induction s generalizing cur with
  | nil => simp [read_names]
  | cons c s ih =>
    have hc : c ≠ ' ' := fun h => hs (by simp [h])
    have hs' : ' ' ∉ s := fun h => hs (List.mem_cons_of_mem _ h)
    rw [List.cons_append, read_names, if_neg hc, ih hs']
    simp

theorem read_names_join (names : List String) (hsep : ∀ s ∈ names, ' ' ∉ s.data) :
    read_names [] (names.flatMap (fun s => s.data ++ [' '])) = names.map (fun s => s.data) := by
  induction names with
  | nil => simp [read_names]
  | cons s names ih =>
    have h1 : ' ' ∉ s.data := hsep s (List.mem_cons_self _ _)
    have h2 : ∀ t ∈ names, ' ' ∉ t.data := fun t ht => hsep t (List.mem_cons_of_mem _ ht)
    simp only [List.flatMap_cons, List.append_assoc, List.singleton_append, List.map_cons]
    rw [read_names_name _ h1, ih h2]
    simp

theorem matching_names_sep (tbl : List valstr) (n : Nat)
    (hsep : ∀ e ∈ tbl, ' ' ∉ e.str.data) : ∀ s ∈ matching_names tbl n, ' ' ∉ s.data := by
  intro s hs
  simp only [matching_names, table_rows, List.mem_map, List.mem_filter] at hs
  obtain ⟨e, ⟨he, -⟩, rfl⟩ := hs
  exact hsep e (List.takeWhile_subset _ he)

/-- C18: for every bitmask `n` and every zero-terminated table whose names hold
no separator (and fit, each with its separator, in the 128-byte buffer
`supportedTypes`), the string built by `ipmi_1_5_authtypes` is the names of
the rows before the terminator whose value has a bit in common with `n`, in
table order, each followed by one separator; read separator by separator it
gives exactly that list of names (one occurrence per matching row, nothing
from a non-matching row), and it is empty when no row matches. -/
theorem authtypes_names_in_table_order (tbl : List valstr) (n : Nat)
    (_hz : ∃ e ∈ tbl, e.val = 0) (hsep : ∀ e ∈ tbl, ' ' ∉ e.str.data)
    (_hfit : ((matching_names tbl n).map (fun s => s.utf8ByteSize + 1)).sum < 128) :
    (ipmi_1_5_authtypes tbl n).data
        = (matching_names tbl n).flatMap (fun s => s.data ++ [' ']) ∧
      read_names [] (ipmi_1_5_authtypes tbl n).data
        = (matching_names tbl n).map (fun s => s.data) ∧
      (matching_names tbl n = [] → ipmi_1_5_authtypes tbl n = "") := by
  have hdata : (ipmi_1_5_authtypes tbl n).data
      = (matching_names tbl n).flatMap (fun s => s.data ++ [' ']) := by
    unfold ipmi_1_5_authtypes
    rw [authtypes_loop_data]
    rfl
  refine ⟨hdata, ?_, fun hnone => ?_⟩
  · rw [hdata]
    exact read_names_join _ (matching_names_sep tbl n hsep)
  · apply String.ext
    rw [hdata, hnone]
    rfl

/-- C18, closed instance: the mask `0x21` over the table NONE, MD2, MD5,
PASSWORD, OEM gives the names NONE and OEM, in that order. -/
theorem authtypes_names_in_table_order_witness :
    matching_names demo_externals.ipmi_authtype_vals 0x21 = ["NONE", "OEM"] ∧
      read_names [] (ipmi_1_5_authtypes demo_externals.ipmi_authtype_vals 0x21).data
        = (matching_names demo_externals.ipmi_authtype_vals 0x21).map (fun s => s.data) :=
  ⟨by decide,
    (authtypes_names_in_table_order demo_externals.ipmi_authtype_vals 0x21
      ⟨⟨0, ""⟩, by decide, rfl⟩ (by decide) (by decide)).2.1⟩

/-! ### Round trips of a whole command -/

theorem run_state_append {σ : Type} (intf : ipmi_intf σ) (s : σ) (l1 l2 : List ipmi_rq) :
    run_state intf s (l1 ++ l2) = run_state intf (run_state intf s l1) l2 := by
  induction l1 generalizing s with
  | nil => rfl
  | cons rq l1 ih => simp [run_state, ih]

theorem responses_append {σ : Type} (intf : ipmi_intf σ) (s : σ) (l1 l2 : List ipmi_rq) :
    responses intf s (l1 ++ l2)
      = responses intf s l1 ++ responses intf (run_state intf s l1) l2 := by
  induction l1 generalizing s with
  | nil => rfl
  | cons rq l1 ih => simp [responses, run_state, ih]

theorem responses_length {σ : Type} (intf : ipmi_intf σ) (s : σ) (l : List ipmi_rq) :
    (responses intf s l).length = l.length := by
  induction l generalizing s with
  | nil => rfl
  | cons rq l ih => simp [responses, ih]

theorem fail_fast_nil (r : Int) : fail_fast r [] := by
  intro k hk
  simp at hk

theorem fail_fast_single (r : Int) (x : Option ipmi_rs) (h : rsp_failed x = true → r = -1) :
    fail_fast r [x] := by
  intro k hk hf
  have hk0 : k = 0 := by simpa using hk
  subst hk0
  exact ⟨h (by simpa using hf), rfl⟩

theorem fail_fast_cons (r : Int) (x : Option ipmi_rs) (rs : List (Option ipmi_rs))
    (hx : rsp_failed x = false) (h : fail_fast r rs) : fail_fast r (x :: rs) := by
  intro k hk hf
  cases k with
  | zero => simp [hx] at hf
  | succ k =>
    have hk' : k < rs.length := by simpa using hk
    obtain ⟨h1, h2⟩ := h k hk' (by simpa using hf)
    exact ⟨h1, by simp [h2]⟩

theorem user_pairs_succ (channel start j : Nat) :
    user_pairs channel start (j + 1) = user_pair channel start ++ user_pairs channel (start + 1) j := by
  simp [user_pairs, List.range'_succ]

/-- One iteration of the loop of `ipmi_get_user_access`, whatever the transport
does; `a` and `b` are its answers to the two requests of the iteration. -/
theorem get_user_access_loop_cases {σ : Type} (E : Externals) (intf : ipmi_intf σ)
    (channel userid fuel curr_uid max_uid : Nat) (init : Bool) (w : World σ)
    (a b : Option ipmi_rs × σ)
    (ha : a = intf.sendrecv w.st (user_access_rq (channel &&& 0xf) (curr_uid &&& 0x3f)))
    (hb : b = intf.sendrecv a.2 (user_name_rq (curr_uid &&& 0x3f))) :
    (rsp_failed a.1 = true ∧
      ∃ w', ipmi_get_user_access_loop E intf channel userid (fuel + 1) curr_uid max_uid init w
          = some (-1, w') ∧
        w'.sent = w.sent ++ [user_access_rq (channel &&& 0xf) (curr_uid &&& 0x3f)] ∧
        w'.st = a.2) ∨
    (rsp_failed a.1 = false ∧ rsp_failed b.1 = true ∧
      ∃ w', ipmi_get_user_access_loop E intf channel userid (fuel + 1) curr_uid max_uid init w
          = some (-1, w') ∧
        w'.sent = w.sent ++ user_pair channel curr_uid ∧ w'.st = b.2) ∨
    (rsp_failed a.1 = false ∧ rsp_failed b.1 = false ∧
      ∃ w4, w4.sent = w.sent ++ user_pair channel curr_uid ∧ w4.st = b.2 ∧
        ipmi_get_user_access_loop E intf channel userid (fuel + 1) curr_uid max_uid init w
          = if userid = 0 ∧ curr_uid + 1 ≤
                (if init then reported_max_user_ids a.1 else max_uid) then
              ipmi_get_user_access_loop E intf channel userid fuel (curr_uid + 1)
                (if init then reported_max_user_ids a.1 else max_uid) false w4
            else some (0, w4)) := by
  rcases a with ⟨a1, sa⟩
  rcases b with ⟨b1, sb⟩
  simp only at hb
  rw [ipmi_get_user_access_loop]
  cases a1 with
  | none =>
    left
    simp [send, ← ha, rsp_failed]
  | some rs1 =>
    by_cases h1 : rs1.ccode > 0
    · left
      simp [send, ← ha, rsp_failed, h1]
    · right
      have h1' : rs1.ccode = 0 := by omega
      cases b1 with
      | none =>
        left
        simp [send, ← ha, ← hb, rsp_failed, h1', user_pair]
      | some rs2 =>
        by_cases h2 : rs2.ccode > 0
        · left
          simp [send, ← ha, ← hb, rsp_failed, h1', h2, user_pair]
        · right
          have h2' : rs2.ccode = 0 := by omega
          refine ⟨by simp [rsp_failed, h1'], by simp [rsp_failed, h2'], ?_⟩
          simp only [send, ← ha, ← hb, h1', h2', gt_iff_lt, lt_self_iff_false, if_false,
            reported_max_user_ids]
          refine ⟨_, ?_, ?_, rfl⟩
          · rw [user_access_report_sent]
            cases init <;> simp [user_pair]
          · rw [user_access_report_st]
            cases init <;> simp

/-- The loop of `ipmi_get_user_access` after its first iteration
(`init = 0`), whatever the transport does: with fuel for
`max 1 (max_uid + 1 - curr_uid)` iterations it returns, having entered `j`
iterations for the ids `curr_uid, curr_uid + 1, ...`, fail-fast. -/
theorem get_user_access_loop_run {σ : Type} (E : Externals) (intf : ipmi_intf σ)
    (channel userid max_uid : Nat) :
    ∀ (fuel curr_uid : Nat) (w : World σ), max 1 (max_uid + 1 - curr_uid) ≤ fuel →
      ∃ r w' l j,
        ipmi_get_user_access_loop E intf channel userid fuel curr_uid max_uid false w
          = some (r, w') ∧
        w'.sent = w.sent ++ l ∧ w'.st = run_state intf w.st l ∧
        fail_fast r (responses intf w.st l) ∧
        1 ≤ j ∧ j ≤ (if userid = 0 then max 1 (max_uid + 1 - curr_uid) else 1) ∧
        loop_requests channel curr_uid j l := by
  intro fuel
  induction fuel with
  | zero =>
    intro curr_uid w hfuel
    have : 1 ≤ max 1 (max_uid + 1 - curr_uid) := le_max_left _ _
    omega
  | succ f ih =>
    intro curr_uid w hfuel
    rcases get_user_access_loop_cases E intf channel userid f curr_uid max_uid false w _ _
        rfl rfl with
      ⟨hfa, w', hl, hs, hst⟩ | ⟨hfa, hfb, w', hl, hs, hst⟩ | ⟨hfa, hfb, w4, hs4, hst4, hl⟩
    · refine ⟨-1, w', _, 1, hl, hs, ?_, ?_, le_refl _, ?_, ?_⟩
      · rw [hst]; rfl
      · exact fail_fast_single _ _ (fun _ => rfl)
      · split_ifs
        · exact le_max_left _ _
        · exact le_refl _
      · right; simp [user_pairs]
    · refine ⟨-1, w', _, 1, hl, hs, ?_, ?_, le_refl _, ?_, ?_⟩
      · rw [hst]; rfl
      · exact fail_fast_cons _ _ _ hfa (fail_fast_single _ _ (fun _ => rfl))
      · split_ifs
        · exact le_max_left _ _
        · exact le_refl _
      · left; simp [user_pairs, List.range'_succ]
    · simp only [Bool.false_eq_true, if_false] at hl
      by_cases hcont : userid = 0 ∧ curr_uid + 1 ≤ max_uid
      · rw [if_pos hcont] at hl
        have hfuel' : max 1 (max_uid + 1 - (curr_uid + 1)) ≤ f := by
          have h1 : max 1 (max_uid + 1 - curr_uid) = max_uid + 1 - curr_uid :=
            max_eq_right (by omega)
          rw [h1] at hfuel
          exact max_le (by omega) (by omega)
        obtain ⟨r, w', l', j', hl', hs', hst', hff', hj1, hjb, hshape⟩ :=
          ih (curr_uid + 1) w4 hfuel'
        refine ⟨r, w', user_pair channel curr_uid ++ l', j' + 1, ?_, ?_, ?_, ?_, by omega,
          ?_, ?_⟩
        · rw [hl]; exact hl'
        · rw [hs', hs4, List.append_assoc]
        · rw [hst', hst4, run_state_append]; rfl
        · rw [responses_append]
          have e : run_state intf w.st (user_pair channel curr_uid)
              = (intf.sendrecv (intf.sendrecv w.st
                  (user_access_rq (channel &&& 0xf) (curr_uid &&& 0x3f))).2
                  (user_name_rq (curr_uid &&& 0x3f))).2 := rfl
          rw [e, ← hst4]
          exact fail_fast_cons _ _ _ hfa (fail_fast_cons _ _ _ hfb hff')
        · rw [if_pos hcont.1] at hjb ⊢
          have h1 : max 1 (max_uid + 1 - curr_uid) = max_uid + 1 - curr_uid :=
            max_eq_right (by omega)
          have h2 : max 1 (max_uid + 1 - (curr_uid + 1)) = max_uid + 1 - (curr_uid + 1) :=
            max_eq_right (by omega)
          rw [h1]
          rw [h2] at hjb
          omega
        · rcases hshape with h | h
          · left
            rw [h, user_pairs_succ]
          · right
            obtain ⟨i, rfl⟩ : ∃ i, j' = i + 1 := ⟨j' - 1, by omega⟩
            simp only [Nat.add_sub_cancel] at h ⊢
            rw [h, user_pairs_succ, List.append_assoc]
            have : curr_uid + 1 + i = curr_uid + (i + 1) := by omega
            rw [this]
      · rw [if_neg hcont] at hl
        refine ⟨0, w4, _, 1, hl, hs4, ?_, ?_, le_refl _, ?_, ?_⟩
        · rw [hst4]; rfl
        · exact fail_fast_cons _ _ _ hfa (fail_fast_cons _ _ _ hfb (fail_fast_nil _))
        · split_ifs
          · exact le_max_left _ _
          · exact le_refl _
        · left; simp [user_pairs, List.range'_succ]

/-- The whole of `ipmi_get_user_access`, whatever the transport does: with fuel
for `max 1 m` iterations, `m` being the max_user_ids of the first response, it
returns, having entered `j ≤ max 1 m` iterations (one when `userid ≠ 0`) for
consecutive ids, fail-fast. -/
theorem get_user_access_run {σ : Type} (E : Externals) (intf : ipmi_intf σ)
    (fuel channel userid : Nat) (w : World σ)
    (hfuel : max 1 (reported_max_user_ids
      (intf.sendrecv (intf.session_set_privlvl w.st E.IPMI_SESSION_PRIV_ADMIN)
        (user_access_rq (channel &&& 0xf)
          ((if userid ≠ 0 then userid else 1) &&& 0x3f))).1) ≤ fuel) :
    ∃ r w' l j,
      ipmi_get_user_access E intf fuel channel userid w = some (r, w') ∧
      w'.sent = w.sent ++ l ∧
      w'.st = run_state intf (intf.session_set_privlvl w.st E.IPMI_SESSION_PRIV_ADMIN) l ∧
      fail_fast r
        (responses intf (intf.session_set_privlvl w.st E.IPMI_SESSION_PRIV_ADMIN) l) ∧
      1 ≤ j ∧
      j ≤ (if userid = 0 then max 1 (reported_max_user_ids
        (intf.sendrecv (intf.session_set_privlvl w.st E.IPMI_SESSION_PRIV_ADMIN)
          (user_access_rq (channel &&& 0xf)
            ((if userid ≠ 0 then userid else 1) &&& 0x3f))).1) else 1) ∧
      loop_requests channel (if userid ≠ 0 then userid else 1) j l := by
  generalize hstart : (if userid ≠ 0 then userid else 1) = start at hfuel ⊢
  generalize hm : reported_max_user_ids
    (intf.sendrecv (intf.session_set_privlvl w.st E.IPMI_SESSION_PRIV_ADMIN)
      (user_access_rq (channel &&& 0xf) (start &&& 0x3f))).1 = m at hfuel ⊢
  obtain ⟨f, rfl⟩ : ∃ f, fuel = f + 1 :=
    ⟨fuel - 1, by have : 1 ≤ max 1 m := le_max_left _ _; omega⟩
  have hdef : ipmi_get_user_access E intf (f + 1) channel userid w
      = ipmi_get_user_access_loop E intf channel userid (f + 1) start 0 true
          (ipmi_intf_session_set_privlvl intf E.IPMI_SESSION_PRIV_ADMIN w) := by
    simp only [ipmi_get_user_access, hstart]
  rw [hdef]
  rcases get_user_access_loop_cases E intf channel userid f start 0 true
      (ipmi_intf_session_set_privlvl intf E.IPMI_SESSION_PRIV_ADMIN w) _ _ rfl rfl with
    ⟨hfa, w', hl, hs, hst⟩ | ⟨hfa, hfb, w', hl, hs, hst⟩ | ⟨hfa, hfb, w4, hs4, hst4, hl⟩
  · refine ⟨-1, w', _, 1, hl, by simpa using hs, ?_, ?_, le_refl _, ?_, ?_⟩
    · rw [hst]; rfl
    · exact fail_fast_single _ _ (fun _ => rfl)
    · split_ifs
      · exact le_max_left _ _
      · exact le_refl _
    · right; simp [user_pairs]
  · refine ⟨-1, w', _, 1, hl, by simpa using hs, ?_, ?_, le_refl _, ?_, ?_⟩
    · rw [hst]; rfl
    · exact fail_fast_cons _ _ _ hfa (fail_fast_single _ _ (fun _ => rfl))
    · split_ifs
      · exact le_max_left _ _
      · exact le_refl _
    · left; simp [user_pairs, List.range'_succ]
  · have hm' : reported_max_user_ids
        (intf.sendrecv (ipmi_intf_session_set_privlvl intf E.IPMI_SESSION_PRIV_ADMIN w).st
          (user_access_rq (channel &&& 0xf) (start &&& 0x3f))).1 = m := hm
    simp only [if_true, hm'] at hl
    by_cases hcont : userid = 0 ∧ start + 1 ≤ m
    · rw [if_pos hcont] at hl
      have hstart1 : 1 ≤ start := by
        rw [← hstart]; split_ifs <;> omega
      have hm1 : max 1 m = m := max_eq_right (by omega)
      rw [hm1] at hfuel
      obtain ⟨r, w', l', j', hl', hs', hst', hff', hj1, hjb, hshape⟩ :=
        get_user_access_loop_run E intf channel userid m f (start + 1) w4
          (max_le (by omega) (by omega))
      refine ⟨r, w', user_pair channel start ++ l', j' + 1, ?_, ?_, ?_, ?_, by omega, ?_, ?_⟩
      · rw [hl]; exact hl'
      · rw [hs', hs4, List.append_assoc]; rfl
      · rw [hst', hst4, run_state_append]; rfl
      · rw [responses_append]
        have e : run_state intf (intf.session_set_privlvl w.st E.IPMI_SESSION_PRIV_ADMIN)
            (user_pair channel start)
            = (intf.sendrecv (intf.sendrecv
                (ipmi_intf_session_set_privlvl intf E.IPMI_SESSION_PRIV_ADMIN w).st
                (user_access_rq (channel &&& 0xf) (start &&& 0x3f))).2
                (user_name_rq (start &&& 0x3f))).2 := rfl
        rw [e, ← hst4]
        exact fail_fast_cons _ _ _ hfa (fail_fast_cons _ _ _ hfb hff')
      · rw [if_pos hcont.1] at hjb ⊢
        have h2 : max 1 (m + 1 - (start + 1)) = m + 1 - (start + 1) :=
          max_eq_right (by omega)
        rw [hm1]
        rw [h2] at hjb
        omega
      · rcases hshape with h | h
        · left
          rw [h, user_pairs_succ]
        · right
          obtain ⟨i, rfl⟩ : ∃ i, j' = i + 1 := ⟨j' - 1, by omega⟩
          simp only [Nat.add_sub_cancel] at h ⊢
          rw [h, user_pairs_succ, List.append_assoc]
          have : start + 1 + i = start + (i + 1) := by omega
          rw [this]
    · rw [if_neg hcont] at hl
      refine ⟨0, w4, _, 1, hl, by simpa using hs4, ?_, ?_, le_refl _, ?_, ?_⟩
      · rw [hst4]; rfl
      · exact fail_fast_cons _ _ _ hfa (fail_fast_cons _ _ _ hfb (fail_fast_nil _))
      · split_ifs
        · exact le_max_left _ _
        · exact le_refl _
      · left; simp [user_pairs, List.range'_succ]

theorem count_cmd_user_pairs (channel : Nat) (j : Nat) :
    ∀ start, count_cmd Cmd.IPMI_GET_USER_ACCESS (user_pairs channel start j) = j ∧
      count_cmd Cmd.IPMI_GET_USER_NAME (user_pairs channel start j) = j := by
  induction j with
  | zero => intro start; simp [user_pairs, count_cmd]
  | succ j ih =>
    intro start
    obtain ⟨h1, h2⟩ := ih (start + 1)
    rw [user_pairs_succ, count_cmd_append, count_cmd_append, h1, h2]
    simp [count_cmd, user_pair, user_access_rq, user_name_rq]
    omega

theorem count_cmd_loop_requests (channel start j : Nat) (l : List ipmi_rq) (hj : 1 ≤ j)
    (h : loop_requests channel start j l) :
    count_cmd Cmd.IPMI_GET_USER_ACCESS l = j ∧ count_cmd Cmd.IPMI_GET_USER_NAME l ≤ j := by
  rcases h with h | h
  · rw [h]
    obtain ⟨h1, h2⟩ := count_cmd_user_pairs channel j start
    exact ⟨h1, le_of_eq h2⟩
  · rw [h, count_cmd_append, count_cmd_append]
    obtain ⟨h1, h2⟩ := count_cmd_user_pairs channel (j - 1) start
    rw [h1, h2]
    simp [count_cmd, user_access_rq]
    omega

theorem reported_max_user_ids_le (rsp : Option ipmi_rs) : reported_max_user_ids rsp ≤ 63 := by
  cases rsp with
  | none => simp [reported_max_user_ids]
  | some rs =>
    simp only [reported_max_user_ids, get_user_access_rsp.decode]
    have := Nat.mod_lt (byte_at rs.data 0) (by norm_num : 0 < 64)
    omega

/-- C20: the loop of `ipmi_get_user_access` terminates for every channel, every
user id and every transport: with `m` the max_user_ids of the first response
(at most 63; 0 when there is none), any fuel of at least `max 1 m` iterations
gives a result.  The run enters `j` iterations with `1 ≤ j ≤ max 1 m`, for the
consecutive ids `start, start + 1, ...` (`start` is the user id, or 1 when it
is 0): its requests are `j` (access, name) pairs, or `j - 1` pairs and the
access request on which it failed, so at most `max 1 m` Get User Access
requests and no more Get User Name requests than those.  The bound mentions
the first response only.  When `userid` is 0, the first two round trips
succeed and `m = 0`, exactly one pair, for id 1, is issued and the result
is 0. -/
theorem get_user_access_loop_terminates {σ : Type} (E : Externals) (intf : ipmi_intf σ)
    (fuel channel userid : Nat) (w : World σ)
    (hfuel : max 1 (reported_max_user_ids
      (intf.sendrecv (intf.session_set_privlvl w.st E.IPMI_SESSION_PRIV_ADMIN)
        (user_access_rq (channel &&& 0xf)
          ((if userid ≠ 0 then userid else 1) &&& 0x3f))).1) ≤ fuel) :
    reported_max_user_ids
        (intf.sendrecv (intf.session_set_privlvl w.st E.IPMI_SESSION_PRIV_ADMIN)
          (user_access_rq (channel &&& 0xf)
            ((if userid ≠ 0 then userid else 1) &&& 0x3f))).1 ≤ 63 ∧
    (∃ r w' l j,
      ipmi_get_user_access E intf fuel channel userid w = some (r, w') ∧
      w'.sent = w.sent ++ l ∧
      1 ≤ j ∧
      j ≤ max 1 (reported_max_user_ids
        (intf.sendrecv (intf.session_set_privlvl w.st E.IPMI_SESSION_PRIV_ADMIN)
          (user_access_rq (channel &&& 0xf)
            ((if userid ≠ 0 then userid else 1) &&& 0x3f))).1) ∧
      loop_requests channel (if userid ≠ 0 then userid else 1) j l ∧
      count_cmd Cmd.IPMI_GET_USER_ACCESS l = j ∧
      count_cmd Cmd.IPMI_GET_USER_NAME l ≤ j) ∧
    (userid = 0 →
      rsp_failed (intf.sendrecv (intf.session_set_privlvl w.st E.IPMI_SESSION_PRIV_ADMIN)
        (user_access_rq (channel &&& 0xf) (1 &&& 0x3f))).1 = false →
      rsp_failed (intf.sendrecv
        (intf.sendrecv (intf.session_set_privlvl w.st E.IPMI_SESSION_PRIV_ADMIN)
          (user_access_rq (channel &&& 0xf) (1 &&& 0x3f))).2
        (user_name_rq (1 &&& 0x3f))).1 = false →
      reported_max_user_ids
        (intf.sendrecv (intf.session_set_privlvl w.st E.IPMI_SESSION_PRIV_ADMIN)
          (user_access_rq (channel &&& 0xf) (1 &&& 0x3f))).1 = 0 →
      ∃ w', ipmi_get_user_access E intf fuel channel userid w = some (0, w') ∧
        w'.sent = w.sent ++ [user_access_rq (channel &&& 0xf) (1 &&& 0x3f),
          user_name_rq (1 &&& 0x3f)]) := by
  refine ⟨reported_max_user_ids_le _, ?_, ?_⟩
  · obtain ⟨r, w', l, j, hres, hsent, -, -, hj1, hjb, hshape⟩ :=
      get_user_access_run E intf fuel channel userid w hfuel
    obtain ⟨hc1, hc2⟩ := count_cmd_loop_requests _ _ _ _ hj1 hshape
    refine ⟨r, w', l, j, hres, hsent, hj1, ?_, hshape, hc1, hc2⟩
    by_cases hu : userid = 0
    · rw [if_pos hu] at hjb; exact hjb
    · rw [if_neg hu] at hjb; exact le_trans hjb (le_max_left _ _)
  · intro hu hfa hfb hm
    subst hu
    obtain ⟨f, rfl⟩ : ∃ f, fuel = f + 1 :=
      ⟨fuel - 1, by
        have : 1 ≤ max 1 (reported_max_user_ids
          (intf.sendrecv (intf.session_set_privlvl w.st E.IPMI_SESSION_PRIV_ADMIN)
            (user_access_rq (channel &&& 0xf)
              ((if (0 : Nat) ≠ 0 then 0 else 1) &&& 0x3f))).1) := le_max_left _ _
        omega⟩
    have hdef : ipmi_get_user_access E intf (f + 1) channel 0 w
        = ipmi_get_user_access_loop E intf channel 0 (f + 1) 1 0 true
            (ipmi_intf_session_set_privlvl intf E.IPMI_SESSION_PRIV_ADMIN w) := by
      simp [ipmi_get_user_access]
    rw [hdef]
    rcases get_user_access_loop_cases E intf channel 0 f 1 0 true
        (ipmi_intf_session_set_privlvl intf E.IPMI_SESSION_PRIV_ADMIN w) _ _ rfl rfl with
      ⟨hfa', -⟩ | ⟨-, hfb', -⟩ | ⟨-, -, w4, hs4, -, hl⟩
    · exact absurd (hfa'.symm.trans hfa) (by simp)
    · exact absurd (hfb'.symm.trans hfb) (by simp)
    · have hm' : reported_max_user_ids
          (intf.sendrecv (ipmi_intf_session_set_privlvl intf E.IPMI_SESSION_PRIV_ADMIN w).st
            (user_access_rq (channel &&& 0xf) (1 &&& 0x3f))).1 = 0 := hm
      simp only [if_true, hm'] at hl
      refine ⟨w4, ?_, ?_⟩
      · rw [hl]; simp
      · rw [hs4]; rfl

/-- C20, closed instance: the device reports `max_user_ids = 0`; with fuel for
one iteration the enumeration returns 0 after the one pair for id 1. -/
theorem get_user_access_loop_terminates_witness :
    ∃ w', ipmi_get_user_access demo_externals (const_intf (some zero_user_rs)) 1 1 0
          (World.init ()) = some (0, w') ∧
      w'.sent = (World.init ()).sent ++ [user_access_rq (1 &&& 0xf) (1 &&& 0x3f),
        user_name_rq (1 &&& 0x3f)] :=
  (get_user_access_loop_terminates demo_externals (const_intf (some zero_user_rs)) 1 1 0
    (World.init ()) (by decide)).2.2 rfl (by decide) (by decide) (by decide)

/-! ### Fail-fast and the requests of every command -/

/-- The ways `ipmi_set_user_access` can run on any argument list, `a` being the
answer to the baseline read: no request at all (usage), the baseline read
alone (it failed, or a token was not recognised), or the baseline read
followed by one Set User Access request. -/
theorem set_user_access_cases {σ : Type} (E : Externals) (intf : ipmi_intf σ)
    (argv : List cstring) (w : World σ) (a : Option ipmi_rs × σ)
    (ha : a = intf.sendrecv (intf.session_set_privlvl w.st E.IPMI_SESSION_PRIV_ADMIN)
      (user_access_rq (to_uchar (E.strtol (argv.getD 0 [])) &&& 0xf)
        (to_uchar (E.strtol (argv.getD 1 [])) &&& 0x3f))) :
    (ipmi_set_user_access E intf argv w).2.sent = w.sent ∨
    (rsp_failed a.1 = true ∧ (ipmi_set_user_access E intf argv w).1 = -1 ∧
      (ipmi_set_user_access E intf argv w).2.sent
        = w.sent ++ [user_access_rq (to_uchar (E.strtol (argv.getD 0 [])) &&& 0xf)
            (to_uchar (E.strtol (argv.getD 1 [])) &&& 0x3f)]) ∨
    (rsp_failed a.1 = false ∧
      (ipmi_set_user_access E intf argv w).2.sent
        = w.sent ++ [user_access_rq (to_uchar (E.strtol (argv.getD 0 [])) &&& 0xf)
            (to_uchar (E.strtol (argv.getD 1 [])) &&& 0x3f)]) ∨
    (rsp_failed a.1 = false ∧
      ∃ sa : set_user_access_data,
        sa.channel = to_uchar (E.strtol (argv.getD 0 [])) % 16 ∧
        sa.user_id = to_uchar (E.strtol (argv.getD 1 [])) % 64 ∧
        (ipmi_set_user_access E intf argv w).2.sent
          = w.sent ++ [user_access_rq (to_uchar (E.strtol (argv.getD 0 [])) &&& 0xf)
              (to_uchar (E.strtol (argv.getD 1 [])) &&& 0x3f), set_user_access_rq sa] ∧
        (rsp_failed (intf.sendrecv a.2 (set_user_access_rq sa)).1 = true →
          (ipmi_set_user_access E intf argv w).1 = -1)) := by
  by_cases husage : argv.length < 3 ∨ strncmp (argv.getD 0 []) (cstr "help") 4 = 0
  · left
    have h : ipmi_set_user_access E intf argv w
        = (0, printf_channel_usage
            (ipmi_intf_session_set_privlvl intf E.IPMI_SESSION_PRIV_ADMIN w)) := by
      unfold ipmi_set_user_access
      simp only [husage, if_true]
    rw [h]
    simp only [printf_channel_usage_sent, set_privlvl_sent]
  · right
    obtain ⟨ch, uid, t, tokens, rfl⟩ : ∃ ch uid t tokens, argv = ch :: uid :: t :: tokens := by
      match argv, husage with
      | [], h => exact absurd (Or.inl (by simp)) h
      | [_], h => exact absurd (Or.inl (by simp)) h
      | [_, _], h => exact absurd (Or.inl (by simp)) h
      | ch :: uid :: t :: tokens, _ => exact ⟨ch, uid, t, tokens, rfl⟩
    have hch : ch.take 4 ≠ cstr "help" := fun h =>
      husage (Or.inr ((strncmp_help ch).mpr h))
    simp only [List.getD_cons_zero, List.getD_cons_succ] at ha ⊢
    rw [set_user_access_past_usage E intf ch uid t tokens w hch]
    rcases a with ⟨a1, sa⟩
    have hsend : send intf (user_access_rq (to_uchar (E.strtol ch) &&& 0xf)
        (to_uchar (E.strtol uid) &&& 0x3f))
        (ipmi_intf_session_set_privlvl intf E.IPMI_SESSION_PRIV_ADMIN w)
        = (a1, { st := sa,
                 sent := w.sent ++ [user_access_rq (to_uchar (E.strtol ch) &&& 0xf)
                   (to_uchar (E.strtol uid) &&& 0x3f)],
                 out := w.out }) := by
      simp only [send, ipmi_intf_session_set_privlvl, ← ha]
    rw [hsend]
    cases a1 with
    | none =>
      left
      exact ⟨rfl, rfl, rfl⟩
    | some rs =>
      by_cases hc : rs.ccode > 0
      · left
        refine ⟨by simp [rsp_failed, hc], ?_, ?_⟩ <;> simp [hc]
      · right
        have hok : rsp_failed (some rs) = false := by simp [rsp_failed, hc]
        generalize ho : set_user_access_opts E (t :: tokens)
          (set_access_init (to_uchar (E.strtol ch)) (to_uchar (E.strtol uid))
            (get_user_access_rsp.decode rs.data)) = o
        cases o with
        | error arg =>
          left
          refine ⟨hok, ?_⟩
          simp [hc, ho]
        | ok sa' =>
          right
          obtain ⟨-, e2, e3, -, -, -, -, -⟩ := set_user_access_opts_frame E _ _ _ ho
          obtain ⟨-, -, i3, i4, -, -, -, -⟩ :=
            set_access_init_fields (to_uchar (E.strtol ch)) (to_uchar (E.strtol uid)) rs.data
          refine ⟨hok, sa', e2.trans i3, e3.trans i4, ?_, ?_⟩
          · simp only [hc, if_false, ho]
            rcases hb : intf.sendrecv sa (set_user_access_rq sa') with ⟨b1, sb⟩
            cases b1 with
            | none => simp [send, hb]
            | some rs2 =>
              by_cases hc2 : rs2.ccode > 0 <;> simp [send, hb, hc2]
          · intro hf
            simp only [hc, if_false, ho]
            rcases hb : intf.sendrecv sa (set_user_access_rq sa') with ⟨b1, sb⟩
            rw [hb] at hf
            cases b1 with
            | none => simp [send, hb]
            | some rs2 =>
              have hc2 : rs2.ccode > 0 := by simpa [rsp_failed] using hf
              simp [send, hb, hc2]

theorem fail_fast_responses {σ : Type} (intf : ipmi_intf σ) (s : σ) (l : List ipmi_rq) (r : Int)
    (h : fail_fast r (responses intf s l)) :
    ∀ k, k < l.length → rsp_failed ((responses intf s l).getD k none) = true →
      r = -1 ∧ l.length = k + 1 := by
  intro k hk hf
  have := h k (by rw [responses_length]; exact hk) hf
  rw [responses_length] at this
  exact this

/-- Fail-fast for `ipmi_get_channel_info`. -/
theorem get_channel_info_fail_fast {σ : Type} (E : Externals) (intf : ipmi_intf σ)
    (channel : Nat) (w : World σ) :
    ∃ l, (ipmi_get_channel_info E intf channel w).2.sent = w.sent ++ l ∧
      fail_fast (ipmi_get_channel_info E intf channel w).1 (responses intf w.st l) := by
  rcases get_channel_info_cases E intf channel w _ _ _ rfl rfl rfl with
    ⟨-, hr, hs⟩ | ⟨hfa, -, hr, hs⟩ | ⟨hfa, hfb, -, hr, hs⟩ |
    ⟨rs1, rs2, rs3, h1, c1, h2, c2, h3, c3, -, hs, -⟩
  · exact ⟨_, hs, fail_fast_single _ _ (fun _ => hr)⟩
  · exact ⟨_, hs, fail_fast_cons _ _ _ hfa (fail_fast_single _ _ (fun _ => hr))⟩
  · exact ⟨_, hs, fail_fast_cons _ _ _ hfa
      (fail_fast_cons _ _ _ hfb (fail_fast_single _ _ (fun _ => hr)))⟩
  · refine ⟨_, hs, fail_fast_cons _ _ _ ?_ (fail_fast_cons _ _ _ ?_
      (fail_fast_single _ _ (fun hf => ?_)))⟩
    · rw [h1]; simp [rsp_failed, c1]
    · rw [h2]; simp [rsp_failed, c2]
    · rw [h3] at hf; simp [rsp_failed, c3] at hf

/-- Fail-fast for `ipmi_set_user_access`, and no Set User Access request after
a failed baseline read. -/
theorem set_user_access_fail_fast {σ : Type} (E : Externals) (intf : ipmi_intf σ)
    (argv : List cstring) (w : World σ) :
    (∃ l, (ipmi_set_user_access E intf argv w).2.sent = w.sent ++ l ∧
      fail_fast (ipmi_set_user_access E intf argv w).1
        (responses intf (intf.session_set_privlvl w.st E.IPMI_SESSION_PRIV_ADMIN) l)) ∧
    (rsp_failed (intf.sendrecv (intf.session_set_privlvl w.st E.IPMI_SESSION_PRIV_ADMIN)
        (user_access_rq (to_uchar (E.strtol (argv.getD 0 [])) &&& 0xf)
          (to_uchar (E.strtol (argv.getD 1 [])) &&& 0x3f))).1 = true →
      count_cmd Cmd.IPMI_SET_USER_ACCESS (ipmi_set_user_access E intf argv w).2.sent
        = count_cmd Cmd.IPMI_SET_USER_ACCESS w.sent) := by
  rcases set_user_access_cases E intf argv w _ rfl with
    hs | ⟨hfa, hr, hs⟩ | ⟨hfa, hs⟩ | ⟨hfa, sa, -, -, hs, hr⟩
  · refine ⟨⟨[], by simpa using hs, fail_fast_nil _⟩, fun _ => by rw [hs]⟩
  · refine ⟨⟨_, hs, fail_fast_single _ _ (fun _ => hr)⟩, fun _ => ?_⟩
    rw [hs, count_cmd_append]
    simp [count_cmd, user_access_rq]
  · refine ⟨⟨_, hs, fail_fast_single _ _ (fun hf => ?_)⟩, fun hf => ?_⟩
    · exact absurd (hfa.symm.trans hf) (by simp)
    · exact absurd (hfa.symm.trans hf) (by simp)
  · refine ⟨⟨_, hs, fail_fast_cons _ _ _ hfa (fail_fast_single _ _ hr)⟩, fun hf => ?_⟩
    exact absurd (hfa.symm.trans hf) (by simp)

/-- C11: fail-fast.  In `ipmi_get_channel_info`, `ipmi_get_user_access` (given
fuel for its iterations) and `ipmi_set_user_access`, whatever the transport
does: if the round trip with index `k` (counted from 0 in the order of
issue, so the `k + 1`-th) fails (no response, or a nonzero completion
code), the command returns -1 and exactly `k + 1` requests have been issued,
the failing one being the last.  In `ipmi_set_user_access` a failed baseline
read leaves the number of Set User Access requests issued unchanged. -/
theorem commands_fail_fast {σ : Type} (E : Externals) (intf : ipmi_intf σ)
    (fuel channel userid : Nat) (argv : List cstring) (w : World σ)
    (hfuel : max 1 (reported_max_user_ids
      (intf.sendrecv (intf.session_set_privlvl w.st E.IPMI_SESSION_PRIV_ADMIN)
        (user_access_rq (channel &&& 0xf)
          ((if userid ≠ 0 then userid else 1) &&& 0x3f))).1) ≤ fuel) :
    (∃ l, (ipmi_get_channel_info E intf channel w).2.sent = w.sent ++ l ∧
      ∀ k, k < l.length → rsp_failed ((responses intf w.st l).getD k none) = true →
        (ipmi_get_channel_info E intf channel w).1 = -1 ∧ l.length = k + 1) ∧
    (∃ r w' l, ipmi_get_user_access E intf fuel channel userid w = some (r, w') ∧
      w'.sent = w.sent ++ l ∧
      ∀ k, k < l.length →
        rsp_failed ((responses intf
          (intf.session_set_privlvl w.st E.IPMI_SESSION_PRIV_ADMIN) l).getD k none) = true →
        r = -1 ∧ l.length = k + 1) ∧
    (∃ l, (ipmi_set_user_access E intf argv w).2.sent = w.sent ++ l ∧
      ∀ k, k < l.length →
        rsp_failed ((responses intf
          (intf.session_set_privlvl w.st E.IPMI_SESSION_PRIV_ADMIN) l).getD k none) = true →
        (ipmi_set_user_access E intf argv w).1 = -1 ∧ l.length = k + 1) ∧
    (rsp_failed (intf.sendrecv (intf.session_set_privlvl w.st E.IPMI_SESSION_PRIV_ADMIN)
        (user_access_rq (to_uchar (E.strtol (argv.getD 0 [])) &&& 0xf)
          (to_uchar (E.strtol (argv.getD 1 [])) &&& 0x3f))).1 = true →
      count_cmd Cmd.IPMI_SET_USER_ACCESS (ipmi_set_user_access E intf argv w).2.sent
        = count_cmd Cmd.IPMI_SET_USER_ACCESS w.sent) := by
  refine ⟨?_, ?_, ?_, (set_user_access_fail_fast E intf argv w).2⟩
  · obtain ⟨l, hs, hff⟩ := get_channel_info_fail_fast E intf channel w
    exact ⟨l, hs, fail_fast_responses intf _ l _ hff⟩
  · obtain ⟨r, w', l, j, hres, hs, -, hff, -, -, -⟩ :=
      get_user_access_run E intf fuel channel userid w hfuel
    exact ⟨r, w', l, hres, hs, fail_fast_responses intf _ l _ hff⟩
  · obtain ⟨l, hs, hff⟩ := (set_user_access_fail_fast E intf argv w).1
    exact ⟨l, hs, fail_fast_responses intf _ l _ hff⟩

/-- C11, closed instance: an enumeration on channel 1 against a transport whose
second round trip gets no response. -/
theorem commands_fail_fast_witness :
    ∃ r w' l, ipmi_get_user_access demo_externals script_intf 5 1 0
          (World.init fail_second_script) = some (r, w') ∧
      w'.sent = (World.init fail_second_script).sent ++ l ∧
      ∀ k, k < l.length →
        rsp_failed ((responses script_intf
          (script_intf.session_set_privlvl (World.init fail_second_script).st
            demo_externals.IPMI_SESSION_PRIV_ADMIN) l).getD k none) = true →
        r = -1 ∧ l.length = k + 1 :=
  (commands_fail_fast demo_externals script_intf 5 1 0 [] (World.init fail_second_script)
    (by decide)).2.1

/-! ### Masks of the channel and the user id -/

theorem and_0xf_eq_mod (x : Nat) : x &&& 0xf = x % 16 := Nat.and_pow_two_sub_one_eq_mod x 4

theorem and_0x3f_eq_mod (x : Nat) : x &&& 0x3f = x % 64 := Nat.and_pow_two_sub_one_eq_mod x 6

/-- The requests added by `ipmi_get_channel_auth_cap`: the first attempt, or
the first attempt and the retry. -/
theorem auth_cap_sent_cases {σ : Type} (E : Externals) (intf : ipmi_intf σ)
    (channel priv : Nat) (w : World σ) :
    (ipmi_get_channel_auth_cap E intf channel priv w).2.sent
        = w.sent ++ [auth_cap_rq ((channel ||| 0x80) % 256) (priv % 256)] ∨
      (ipmi_get_channel_auth_cap E intf channel priv w).2.sent
        = w.sent ++ [auth_cap_rq ((channel ||| 0x80) % 256) (priv % 256),
            auth_cap_rq (((channel ||| 0x80) % 256) &&& 0x7F) (priv % 256)] := by
  unfold ipmi_get_channel_auth_cap
  simp only []
  generalize hr : send intf (auth_cap_rq ((channel ||| 0x80) % 256) (priv % 256)) w = r
  have hs := send_sent intf (auth_cap_rq ((channel ||| 0x80) % 256) (priv % 256)) w
  rw [hr] at hs
  obtain ⟨rsp, w1⟩ := r
  simp only at hs
  cases rsp with
  | none =>
    right
    simp only []
    rw [auth_cap_retry_sent, hs, List.append_assoc]; rfl
  | some rsp1 =>
    by_cases hc : rsp1.ccode > 0
    · right
      simp only [hc, if_true]
      rw [auth_cap_retry_sent, hs, List.append_assoc]; rfl
    · left
      simp only [hc, if_false]
      rw [auth_cap_report_sent, hs]

theorem mem_user_pairs (channel start j : Nat) (rq : ipmi_rq)
    (h : rq ∈ user_pairs channel start j) :
    ∃ id, start ≤ id ∧ id < start + j ∧
      (rq = user_access_rq (channel &&& 0xf) (id &&& 0x3f) ∨ rq = user_name_rq (id &&& 0x3f)) := by
  simp only [user_pairs, List.mem_flatMap, List.mem_range'_1, user_pair, List.mem_cons,
    List.mem_singleton, List.not_mem_nil, or_false] at h
  obtain ⟨id, ⟨h1, h2⟩, h3⟩ := h
  exact ⟨id, h1, h2, h3⟩

theorem mem_loop_requests (channel start j : Nat) (l : List ipmi_rq) (hj : 1 ≤ j)
    (h : loop_requests channel start j l) (rq : ipmi_rq) (hrq : rq ∈ l) :
    ∃ id, start ≤ id ∧ id < start + j ∧
      (rq = user_access_rq (channel &&& 0xf) (id &&& 0x3f) ∨ rq = user_name_rq (id &&& 0x3f)) := by
  rcases h with h | h
  · rw [h] at hrq
    exact mem_user_pairs channel start j rq hrq
  · rw [h, List.mem_append] at hrq
    rcases hrq with hrq | hrq
    · obtain ⟨id, h1, h2, h3⟩ := mem_user_pairs channel start (j - 1) rq hrq
      exact ⟨id, h1, by omega, h3⟩
    · rw [List.mem_singleton] at hrq
      exact ⟨start + (j - 1), by omega, by omega, Or.inl hrq⟩

/-- C19 as stated fails for channels above 15: `ipmi_get_channel_auth_cap` on
channel `0x10` sends `0x90` and then `0x10`, whose channel bits are `0x10`,
not `0x10 & 0xF = 0`; `ipmi_get_channel_info` on channel `0x1E` sends the byte
`0x1E`, not `0x1E & 0xF = 0xE`. -/
theorem request_masks_counterexample :
    (ipmi_get_channel_auth_cap demo_externals (const_intf none) 0x10 4
        (World.init ())).2.sent = [auth_cap_rq 0x90 4, auth_cap_rq 0x10 4] ∧
      rq_channel (auth_cap_rq 0x90 4) = some 0x10 ∧
      rq_channel (auth_cap_rq 0x10 4) = some 0x10 ∧
      (0x10 &&& 0xF : Nat) = 0 ∧
      (ipmi_get_channel_info demo_externals (const_intf none) 0x1E
        (World.init ())).2.sent = [channel_info_rq 0x1E] ∧
      rq_channel (channel_info_rq 0x1E) = some 0x1E ∧
      (0x1E &&& 0xF : Nat) = 0xE := by
  refine ⟨?_, ?_, ?_, ?_, ?_, ?_, ?_⟩ <;> decide

/-- C19 (as amended): for every input channel and user id, the channel carried
by every Get Channel Access, Get User Access and Set User Access request is
the input channel masked to 4 bits, and every user id carried (Get User
Access, Get User Name, Set User Access) is an id masked to 6 bits: the
requested id when it is nonzero, one of the enumerated ids otherwise, and the
positional id in `setaccess`.  For channels 0..15 the same holds for the
authentication-capabilities request (apart from its bit 7) and for the Get
Channel Info request. -/
theorem request_masks {σ : Type} (E : Externals) (intf : ipmi_intf σ)
    (fuel channel priv userid : Nat) (argv : List cstring) (w : World σ)
    (hfuel : max 1 (reported_max_user_ids
      (intf.sendrecv (intf.session_set_privlvl w.st E.IPMI_SESSION_PRIV_ADMIN)
        (user_access_rq (channel &&& 0xf)
          ((if userid ≠ 0 then userid else 1) &&& 0x3f))).1) ≤ fuel) :
    (channel < 16 →
      ∀ rq ∈ (ipmi_get_channel_auth_cap E intf channel priv w).2.sent.drop w.sent.length,
        rq_channel rq = some (channel &&& 0xF)) ∧
    (∀ rq ∈ (ipmi_get_channel_info E intf channel w).2.sent.drop w.sent.length,
      (rq.cmd = Cmd.IPMI_GET_CHANNEL_ACCESS → rq_channel rq = some (channel &&& 0xF)) ∧
      (channel < 16 → rq_channel rq = some (channel &&& 0xF))) ∧
    (∃ r w', ipmi_get_user_access E intf fuel channel userid w = some (r, w') ∧
      ∀ rq ∈ w'.sent.drop w.sent.length,
        (∀ c, rq_channel rq = some c → c = channel &&& 0xF) ∧
        ∃ id, rq_user_id rq = some (id &&& 0x3F) ∧ (userid ≠ 0 → id = userid)) ∧
    (∀ rq ∈ (ipmi_set_user_access E intf argv w).2.sent.drop w.sent.length,
      (∀ c, rq_channel rq = some c → c = to_uchar (E.strtol (argv.getD 0 [])) &&& 0xF) ∧
      (∀ u, rq_user_id rq = some u → u = to_uchar (E.strtol (argv.getD 1 [])) &&& 0x3F)) := by
  refine ⟨?_, ?_, ?_, ?_⟩
  · intro hch rq hrq
    have hb : ((channel ||| 0x80) % 256) &&& 0x7F = channel &&& 0xF := by
      interval_cases channel <;> rfl
    have hb2 : (((channel ||| 0x80) % 256) &&& 0x7F) &&& 0x7F = channel &&& 0xF := by
      interval_cases channel <;> rfl
    rcases auth_cap_sent_cases E intf channel priv w with hs | hs
    · rw [hs, List.drop_left] at hrq
      rw [List.mem_singleton] at hrq
      subst hrq
      simp only [rq_channel, auth_cap_rq, hb]
    · rw [hs, List.drop_left] at hrq
      simp only [List.mem_cons, List.mem_singleton, List.not_mem_nil, or_false] at hrq
      rcases hrq with rfl | rfl
      · simp only [rq_channel, auth_cap_rq, hb]
      · simp only [rq_channel, auth_cap_rq, hb2]
  · intro rq hrq
    have hmem : rq = channel_info_rq channel ∨
        rq = channel_access_rq (channel &&& 0xf) 0x80 ∨
        rq = channel_access_rq (channel &&& 0xf) 0x40 := by
      rcases get_channel_info_cases E intf channel w _ _ _ rfl rfl rfl with
        ⟨-, -, hs⟩ | ⟨-, -, -, hs⟩ | ⟨-, -, -, -, hs⟩ | ⟨_, _, _, -, -, -, -, -, -, -, hs, -⟩ <;>
      · rw [hs, List.drop_left] at hrq
        simp only [List.mem_cons, List.mem_singleton, List.not_mem_nil, or_false] at hrq
        tauto
    rcases hmem with rfl | rfl | rfl
    · refine ⟨fun h => ?_, fun hch => ?_⟩
      · simp [channel_info_rq] at h
      · have h1 : channel % 256 = channel := Nat.mod_eq_of_lt (by omega)
        have h2 : channel &&& 0xF = channel := by
          rw [and_0xf_eq_mod]; exact Nat.mod_eq_of_lt hch
        simp only [rq_channel, channel_info_rq, h1, h2]
    · exact ⟨fun _ => rfl, fun _ => rfl⟩
    · exact ⟨fun _ => rfl, fun _ => rfl⟩
  · obtain ⟨r, w', l, j, hres, hs, -, -, hj1, hjb, hshape⟩ :=
      get_user_access_run E intf fuel channel userid w hfuel
    refine ⟨r, w', hres, fun rq hrq => ?_⟩
    rw [hs, List.drop_left] at hrq
    obtain ⟨id, h1, h2, h3⟩ := mem_loop_requests _ _ _ _ hj1 hshape rq hrq
    have hid : userid ≠ 0 → id = userid := by
      intro hu
      rw [if_neg hu] at hjb
      rw [if_pos hu] at h1 h2
      omega
    rcases h3 with rfl | rfl
    · refine ⟨fun c hc => ?_, id, rfl, hid⟩
      simp only [rq_channel, user_access_rq, Option.some.injEq] at hc
      exact hc.symm
    · refine ⟨fun c hc => ?_, id, rfl, hid⟩
      simp [rq_channel, user_name_rq] at hc
  · intro rq hrq
    rcases set_user_access_cases E intf argv w _ rfl with
      hs | ⟨-, -, hs⟩ | ⟨-, hs⟩ | ⟨-, sa, hsc, hsu, hs, -⟩
    · rw [hs, List.drop_length] at hrq
      simp at hrq
    · rw [hs, List.drop_left, List.mem_singleton] at hrq
      subst hrq
      refine ⟨fun c hc => ?_, fun u hu => ?_⟩
      · simp only [rq_channel, user_access_rq, Option.some.injEq] at hc
        exact hc.symm
      · simp only [rq_user_id, user_access_rq, Option.some.injEq] at hu
        exact hu.symm
    · rw [hs, List.drop_left, List.mem_singleton] at hrq
      subst hrq
      refine ⟨fun c hc => ?_, fun u hu => ?_⟩
      · simp only [rq_channel, user_access_rq, Option.some.injEq] at hc
        exact hc.symm
      · simp only [rq_user_id, user_access_rq, Option.some.injEq] at hu
        exact hu.symm
    · rw [hs, List.drop_left] at hrq
      simp only [List.mem_cons, List.mem_singleton, List.not_mem_nil, or_false] at hrq
      rcases hrq with rfl | rfl
      · refine ⟨fun c hc => ?_, fun u hu => ?_⟩
        · simp only [rq_channel, user_access_rq, Option.some.injEq] at hc
          exact hc.symm
        · simp only [rq_user_id, user_access_rq, Option.some.injEq] at hu
          exact hu.symm
      · refine ⟨fun c hc => ?_, fun u hu => ?_⟩
        · simp only [rq_channel, set_user_access_rq, Option.some.injEq] at hc
          rw [← hc, hsc, and_0xf_eq_mod]
        · simp only [rq_user_id, set_user_access_rq, Option.some.injEq] at hu
          rw [← hu, hsu, and_0x3f_eq_mod]

/-- C19, closed instance: `setaccess 17 70 privilege=3`, whose channel and user
id exceed their fields, against a transport that always succeeds: both
requests carry channel `17 & 0xF = 1` and user id `70 & 0x3F = 6`. -/
theorem request_masks_witness :
    (ipmi_set_user_access demo_externals (const_intf (some demo_user_rs))
        [cstr "17", cstr "70", cstr "privilege=3"] (World.init ())).2.sent.map
        (fun rq => (rq_channel rq, rq_user_id rq))
      = [(some 1, some 6), (some 1, some 6)] ∧
    (∀ rq ∈ (ipmi_set_user_access demo_externals (const_intf (some demo_user_rs))
        [cstr "17", cstr "70", cstr "privilege=3"] (World.init ())).2.sent.drop
        (World.init ()).sent.length,
      (∀ c, rq_channel rq = some c →
        c = to_uchar (demo_externals.strtol
          ([cstr "17", cstr "70", cstr "privilege=3"].getD 0 [])) &&& 0xF) ∧
      (∀ u, rq_user_id rq = some u →
        u = to_uchar (demo_externals.strtol
          ([cstr "17", cstr "70", cstr "privilege=3"].getD 1 [])) &&& 0x3F)) :=
  ⟨by decide,
    (request_masks demo_externals (const_intf (some demo_user_rs)) 5 1 4 0
      [cstr "17", cstr "70", cstr "privilege=3"] (World.init ()) (by decide)).2.2.2⟩

end IpmiChannel
